import Mathlib

/-!
Shallow embedding of the orchestration core of the `multi_agent_staybooking`
repository, together with theorems settling the frozen claims about its
specification.

Source files embedded:
  * `src/core/artifact_store.py`   (versioned artifact store)
  * `src/core/project_state.py`    (shared project state aggregate)
  * `src/core/orchestrator.py`     (turn scheduler and state merge)
  * `src/topologies/base.py`       (retry / skip / fail-fast machinery)
  * `src/topologies/peer_review.py`
  * `src/topologies/iterative_feedback.py`
  * `src/topologies/hub_spoke.py`
  * `src/agents/coordinator_agent.py`

`src/core/models.py` (the plain data carriers `Artifact`, `AgentMessage`,
`MessageType`, `ReviewStatus`, `ReviewResult`) is not present under `src/`;
those definitions are modelled from the spec's data-model section and from
how the present source files use them.

Modelling conventions:
  * Python dict/list/scalar payloads are modelled by the `PyVal` family.
  * Python numbers (int and float alike) are modelled as exact rationals;
    `float(...)`/`int(...)` coercions are partial (`Except`), with numeric
    strings left unmodelled (no claim exercises them).
  * Wall-clock timestamps are modelled by a logical clock: `touch` bumps
    `updated_at` by one.
  * A raised-and-propagated Python exception is `Except.error (msg, orch)`,
    carrying the heap-visible (possibly partially mutated) orchestrator.
  * Executors are pure functions of the project state, as the spec's task
    executor contract requires ("read-only snapshot"); delivery of routed
    messages to an agent's private inbox is internal to executors and
    therefore not part of the state.
-/

deriving instance DecidableEq for Except

namespace MAS

/-! ## Python value model -/

mutual

inductive PyVal where
  | pstr (s : String)
  | pnum (q : Rat)
  | pbool (b : Bool)
  | pnone
  | plist (xs : PyList)
  | pdict (kvs : PyDict)
deriving DecidableEq

inductive PyList where
  | nil
  | cons (hd : PyVal) (tl : PyList)
deriving DecidableEq

inductive PyDict where
  | nil
  | cons (k : String) (v : PyVal) (tl : PyDict)
deriving DecidableEq

end

def PyDict.get : PyDict → String → Option PyVal
  | .nil, _ => none
  | .cons k v rest, key => if k = key then some v else rest.get key

def PyList.toList : PyList → List PyVal
  | .nil => []
  | .cons h t => h :: t.toList

/-- Truncation toward zero, as Python's `int(...)` does on a float. -/
def ratTrunc (q : Rat) : Int :=
  if q < 0 then -(Int.floor (-q)) else Int.floor q

/-- Python `float(x)`. Numeric strings are not modelled (no claim uses them);
a non-coercible value is a raised exception. -/
def pyFloat : PyVal → Except String Rat
  | .pnum q => .ok q
  | .pbool b => .ok (if b then 1 else 0)
  | _ => .error "could not convert value to float"

/-- Python `int(x)`. -/
def pyToInt : PyVal → Except String Int
  | .pnum q => .ok (ratTrunc q)
  | .pbool b => .ok (if b then 1 else 0)
  | _ => .error "could not convert value to int"

/-- Python `str(x)`, used only where equality of the result matters
(bug identifiers); the rendering of containers is abstract. -/
def pyStr : PyVal → String
  | .pstr s => s
  | .pnum q => toString q
  | .pbool b => if b then "True" else "False"
  | .pnone => "None"
  | .plist _ => "[list]"
  | .pdict _ => "[dict]"

/-! ## Data carriers

Modelled from the spec: `src/core/models.py` is not under `src/`; the spec's
data-model section gives `Artifact` (identity, producer, opaque content,
store-assigned version), `Message` (sender, receiver, content, closed
`msg_type` enumeration TASK/STATUS/APPROVAL/REVIEW/FEEDBACK) and the reviewer
verdicts APPROVED/REVISION_NEEDED. Opaque metadata/provenance fields play no
role in any claim and are omitted. -/

inductive MessageType where
  | TASK
  | STATUS
  | APPROVAL
  | REVIEW
  | FEEDBACK
deriving DecidableEq

structure AgentMessage where
  sender : String
  receiver : String
  content : String
  msg_type : MessageType
deriving DecidableEq

structure Artifact where
  artifact_id : String
  artifact_type : String
  producer : String
  content : PyVal
  version : Nat
deriving DecidableEq

inductive ReviewStatus where
  | APPROVED
  | REVISION_NEEDED
deriving DecidableEq

/-- `ReviewStatus.value` as used in review-message content strings. -/
def ReviewStatus.value : ReviewStatus → String
  | .APPROVED => "approved"
  | .REVISION_NEEDED => "revision_needed"

structure ReviewResult where
  status : ReviewStatus
  comments : List String
  reviewer : String

/-! ## Artifact store (`src/core/artifact_store.py`)

`artifact_versions` is a Python dict defaulting to `[]` for unknown keys
(`get`/`setdefault`), modelled as a total function into lists. -/

abbrev ArtifactStore := String → List Artifact

def ArtifactStore.empty : ArtifactStore := fun _ => []

def ArtifactStore.register (store : ArtifactStore) (key : String) (artifact : Artifact) :
    ArtifactStore × Artifact :=
  let versions := store key
  let stored := { artifact with version := versions.length + 1 }
  (fun k => if k = key then versions ++ [stored] else store k, stored)

def ArtifactStore.get_latest (store : ArtifactStore) (key : String) : Option Artifact :=
  (store key).getLast?

def ArtifactStore.get_version (store : ArtifactStore) (key : String) (version : Int) :
    Option Artifact :=
  let versions := store key
  if version ≤ 0 ∨ version > versions.length then none
  else versions[version.toNat - 1]?

def ArtifactStore.list_versions (store : ArtifactStore) (key : String) : List Nat :=
  (store key).map (·.version)

/-! ## Project state (`src/core/project_state.py`) -/

structure ProjectState where
  run_id : String := "run"
  created_at : Nat := 0
  updated_at : Nat := 0
  requirements : PyVal := .pnone
  architecture : PyVal := .pnone
  backend_code : PyVal := .pnone
  frontend_code : PyVal := .pnone
  qa_report : PyVal := .pnone
  deployment : PyVal := .pnone
  iteration : Nat := 0
  total_tokens : Int := 0
  total_api_calls : Int := 0
  artifact_store : ArtifactStore := ArtifactStore.empty
  message_log : List AgentMessage := []

def ProjectState.touch (s : ProjectState) : ProjectState :=
  { s with updated_at := s.updated_at + 1 }

def ProjectState.add_message (s : ProjectState) (m : AgentMessage) : ProjectState :=
  ProjectState.touch { s with message_log := s.message_log ++ [m] }

def ProjectState.register_artifact (s : ProjectState) (key : String) (artifact : Artifact) :
    ProjectState × Artifact :=
  let (store, stored) := s.artifact_store.register key artifact
  (ProjectState.touch { s with artifact_store := store }, stored)

def ProjectState.get_latest_artifact (s : ProjectState) (key : String) : Option Artifact :=
  s.artifact_store.get_latest key

def ProjectState.increment_iteration (s : ProjectState) : ProjectState :=
  ProjectState.touch { s with iteration := s.iteration + 1 }

def ProjectState.update_usage (s : ProjectState) (token_delta api_call_delta : Int) :
    ProjectState :=
  ProjectState.touch
    { s with
      total_tokens := s.total_tokens + token_delta
      total_api_calls := s.total_api_calls + api_call_delta }

/-! ## Executor contract and orchestrator (`src/core/orchestrator.py`) -/

/-- One element of an executor output's `artifacts` list: either an
`Artifact` object (store key taken from its `artifact_type`) or a dict entry
carrying an optional `store_key` alongside the coerced artifact payload. -/
inductive ArtifactEntry where
  | direct (a : Artifact)
  | keyed (store_key : Option String) (a : Artifact)
deriving DecidableEq

def ArtifactEntry.storeKey : ArtifactEntry → Option String
  | .direct a => some a.artifact_type
  | .keyed sk _ => sk

def ArtifactEntry.artifact : ArtifactEntry → Artifact
  | .direct a => a
  | .keyed _ a => a

/-- The structured executor output (the spec's five optional parts; usage is
already coerced to integers at this boundary). -/
structure AgentOutput where
  state_updates : List (String × PyVal) := []
  artifacts : List ArtifactEntry := []
  messages : List AgentMessage := []
  usage_tokens : Int := 0
  usage_api_calls : Int := 0
  stop : Bool := false

/-- A registered agent: its `act` entry point (raising modelled as
`Except.error`) and, for peer reviewers, its `review` method. -/
structure Agent where
  act : ProjectState → Except String AgentOutput
  review : Artifact → ReviewResult

structure TurnResult where
  agent_role : String
  success : Bool
  artifacts_registered : List String := []
  messages_emitted : Nat := 0
  usage_tokens : Int := 0
  usage_api_calls : Int := 0
  updated_fields : List String := []
  stop : Bool := false
  error : Option String := none
deriving DecidableEq

structure Orchestrator where
  state : ProjectState
  agents : String → Option Agent
  turn_history : List TurnResult := []

/-- A propagated Python exception: message plus the heap-visible orchestrator
(whose state may be partially mutated). -/
abbrev OErr := String × Orchestrator

/-- Message routing: the message is always appended to the global log;
best-effort delivery into agents' private inboxes is internal to the
executors and outside the modelled state. -/
def Orchestrator.route_message (orch : Orchestrator) (m : AgentMessage) : Orchestrator :=
  { orch with state := orch.state.add_message m }

def Orchestrator.kickoff (orch : Orchestrator) (receiver content : String) : Orchestrator :=
  orch.route_message
    { sender := "orchestrator", receiver := receiver, content := content,
      msg_type := .TASK }

def STATE_UPDATE_FIELDS : List String :=
  ["requirements", "architecture", "backend_code", "frontend_code", "qa_report", "deployment"]

/-- `setattr(self.state, key, value)` for a whitelisted lifecycle key. -/
def setLifecycleField (s : ProjectState) (key : String) (v : PyVal) : ProjectState :=
  if key = "requirements" then { s with requirements := v }
  else if key = "architecture" then { s with architecture := v }
  else if key = "backend_code" then { s with backend_code := v }
  else if key = "frontend_code" then { s with frontend_code := v }
  else if key = "qa_report" then { s with qa_report := v }
  else if key = "deployment" then { s with deployment := v }
  else s

def applyUpdatesCore (s : ProjectState) : List (String × PyVal) → ProjectState × List String
  | [] => (s, [])
  | (key, v) :: rest =>
    if key ∈ STATE_UPDATE_FIELDS then
      let step := applyUpdatesCore (setLifecycleField s key v) rest
      (step.1, key :: step.2)
    else
      applyUpdatesCore s rest

/-- `Orchestrator._apply_state_updates` on the project state: non-whitelisted
keys are skipped, and `touch` fires only when some field was updated. -/
def apply_state_updates (s : ProjectState) (updates : List (String × PyVal)) :
    ProjectState × List String :=
  let step := applyUpdatesCore s updates
  (if step.2 = [] then step.1 else step.1.touch, step.2)

/-- `Orchestrator._register_artifacts`: registers entries in order; a falsy
store key raises `ValueError`, leaving the registrations made so far visible
(the error carries the partial state). -/
def register_artifacts (role : String) :
    ProjectState → List ArtifactEntry → Except ProjectState (ProjectState × List String)
  | s, [] => .ok (s, [])
  | s, entry :: rest =>
    match entry.storeKey with
    | none => .error s
    | some key =>
      if key.isEmpty then .error s
      else
        let a0 := entry.artifact
        let a1 := if a0.producer = "" then { a0 with producer := role } else a0
        let reg := s.register_artifact key a1
        match register_artifacts role reg.1 rest with
        | .error sErr => .error sErr
        | .ok (s2, refs) => .ok (s2, (key ++ ":v" ++ toString reg.2.version) :: refs)

def routeAll (orch : Orchestrator) (role : String) : List AgentMessage → Orchestrator
  | [] => orch
  | m :: rest =>
    let m1 := if m.sender = "" then { m with sender := role } else m
    routeAll (orch.route_message m1) role rest

/-- `Orchestrator.run_turn`: one agent turn. An exception inside `act` is
caught and becomes a failed `TurnResult`; an exception while registering
artifacts propagates (with the partially mutated state) and appends nothing
to the turn history. An unregistered role is a raised `KeyError`. -/
def run_turn (orch : Orchestrator) (role : String) : Except OErr (Orchestrator × TurnResult) :=
  match orch.agents role with
  | none => .error ("Agent not registered: " ++ role, orch)
  | some agent =>
    match agent.act orch.state with
    | .error exc =>
      let result : TurnResult := { agent_role := role, success := false, error := some exc }
      .ok ({ orch with turn_history := orch.turn_history ++ [result] }, result)
    | .ok output =>
      let tokens := output.usage_tokens
      let api_calls := output.usage_api_calls
      let s1 :=
        if tokens ≠ 0 ∨ api_calls ≠ 0 then orch.state.update_usage tokens api_calls
        else orch.state
      let upd := apply_state_updates s1 output.state_updates
      match register_artifacts role upd.1 output.artifacts with
      | .error sPartial =>
        .error ("Artifact entry must provide store_key or artifact_type",
          { orch with state := sPartial })
      | .ok (s3, refs) =>
        let orch2 := routeAll { orch with state := s3 } role output.messages
        let result : TurnResult :=
          { agent_role := role, success := true, artifacts_registered := refs,
            messages_emitted := output.messages.length, usage_tokens := tokens,
            usage_api_calls := api_calls, updated_fields := upd.2,
            stop := output.stop, error := none }
        .ok ({ orch2 with turn_history := orch2.turn_history ++ [result] }, result)

/-! ## Topology base contract (`src/topologies/base.py`) -/

structure BaseCfg where
  max_retries_per_role : Nat := 0
  fail_fast : Bool := true
  skipped_roles : List String := []

def BaseCfg.should_skip (cfg : BaseCfg) (role : String) : Bool :=
  role ∈ cfg.skipped_roles

def BaseCfg.should_stop (cfg : BaseCfg) (result : TurnResult) : Bool :=
  result.stop || (!result.success && cfg.fail_fast)

/-- `BaseTopology.run_role` retry loop; `fuel` counts the retries still
available after the attempt about to be made, so the initial call uses
`max_retries_per_role` and at most `max_retries_per_role + 1` turns run. -/
def run_role_fuel (cfg : BaseCfg) (role : String) :
    Nat → Orchestrator → Except OErr (Orchestrator × List TurnResult × TurnResult)
  | fuel, orch =>
    match run_turn orch role with
    | .error e => .error e
    | .ok (orch1, result) =>
      if result.success || result.stop then .ok (orch1, [result], result)
      else
        match fuel with
        | 0 => .ok (orch1, [result], result)
        | f + 1 =>
          match run_role_fuel cfg role f orch1 with
          | .error e => .error e
          | .ok (orch2, attempts, last) => .ok (orch2, result :: attempts, last)

/-- `BaseTopology.run_role`: all attempts plus the final attempt. -/
def run_role (cfg : BaseCfg) (orch : Orchestrator) (role : String) :
    Except OErr (Orchestrator × List TurnResult × TurnResult) :=
  run_role_fuel cfg role cfg.max_retries_per_role orch

/-! ## Peer-review topology (`src/topologies/peer_review.py`) -/

structure PeerReviewCfg where
  base : BaseCfg := {}
  reviewer_role : String := "reviewer"
  build_roles : List String := ["pm", "architect", "backend_dev", "frontend_dev"]
  review_targets : List (String × String) :=
    [("backend_dev", "backend_code"), ("frontend_dev", "frontend_code")]
  qa_role : String := "qa"
  devops_role : String := "devops"
  max_revisions_per_target : Nat := 1

def reviewMessage (cfg : PeerReviewCfg) (producer_role artifact_key : String)
    (status : ReviewStatus) (round : Nat) : AgentMessage :=
  { sender := cfg.reviewer_role, receiver := producer_role,
    content := artifact_key ++ " review=" ++ status.value ++ "; round=" ++ toString round,
    msg_type := .REVIEW }

/-- `PeerReviewTopology._append_review_turn`: a synthetic reviewer turn
(success iff the review approved). -/
def mkReviewTurn (cfg : PeerReviewCfg) (status : ReviewStatus) (stop : Bool)
    (error : Option String) : TurnResult :=
  { agent_role := cfg.reviewer_role, success := decide (status = ReviewStatus.APPROVED),
    stop := stop, error := error }

/-- The `while True` body of `_run_developer_with_review`. `remaining` is the
revision budget still unspent (`max_revisions_per_target - revisions`), so
the budget check `revisions >= max_revisions_per_target` is `remaining = 0`;
`round` is the current `revisions` value as used in the review message. The
returned `Bool` is the producer loop's should-continue result. -/
def devLoop (cfg : PeerReviewCfg) (reviewer : Agent) (producer_role artifact_key : String) :
    Nat → Nat → Orchestrator → Except OErr (Orchestrator × List TurnResult × Bool)
  | remaining, round, orch =>
    match run_role cfg.base orch producer_role with
    | .error e => .error e
    | .ok (orch1, attempts, producer_result) =>
      if cfg.base.should_stop producer_result then .ok (orch1, attempts, false)
      else
        match orch1.state.get_latest_artifact artifact_key with
        | none =>
          .ok (orch1,
            attempts ++ [mkReviewTurn cfg .REVISION_NEEDED cfg.base.fail_fast
              (some ("missing artifact for key=" ++ artifact_key))],
            !cfg.base.fail_fast)
        | some artifact =>
          let rr := reviewer.review artifact
          let orch2 := orch1.route_message
            (reviewMessage cfg producer_role artifact_key rr.status round)
          let review_turn := mkReviewTurn cfg rr.status false none
          if rr.status = ReviewStatus.APPROVED then
            .ok (orch2, attempts ++ [review_turn], true)
          else
            match remaining with
            | 0 =>
              .ok (orch2,
                attempts ++ [review_turn,
                  mkReviewTurn cfg .REVISION_NEEDED cfg.base.fail_fast
                    (some ("revision budget exhausted for " ++ producer_role ++
                      ": max_revisions=" ++ toString cfg.max_revisions_per_target))],
                !cfg.base.fail_fast)
            | rem + 1 =>
              let orch3 := { orch2 with state := orch2.state.increment_iteration }
              match devLoop cfg reviewer producer_role artifact_key rem (round + 1) orch3 with
              | .error e => .error e
              | .ok (orch4, rest, cont) =>
                .ok (orch4, attempts ++ review_turn :: rest, cont)

/-- `PeerReviewTopology._run_developer_with_review` (the reviewer is looked
up once, before the loop). -/
def run_developer_with_review (cfg : PeerReviewCfg) (orch : Orchestrator)
    (producer_role artifact_key : String) :
    Except OErr (Orchestrator × List TurnResult × Bool) :=
  match orch.agents cfg.reviewer_role with
  | none => .error ("Agent not registered: " ++ cfg.reviewer_role, orch)
  | some reviewer =>
    devLoop cfg reviewer producer_role artifact_key cfg.max_revisions_per_target 0 orch

def PeerReviewCfg.targetOf (cfg : PeerReviewCfg) (role : String) : Option String :=
  (cfg.review_targets.find? (fun rt => rt.1 = role)).map (·.2)

/-- The build-role loop of `PeerReviewTopology.run`; the `Bool` is false when
the run ended inside the build phase (abort or stop). -/
def peerBuildLoop (cfg : PeerReviewCfg) :
    List String → Orchestrator → Except OErr (Orchestrator × List TurnResult × Bool)
  | [], orch => .ok (orch, [], true)
  | role :: rest, orch =>
    if cfg.base.should_skip role then peerBuildLoop cfg rest orch
    else
      match cfg.targetOf role with
      | some artifact_key =>
        match run_developer_with_review cfg orch role artifact_key with
        | .error e => .error e
        | .ok (orch1, results, should_continue) =>
          if should_continue then
            match peerBuildLoop cfg rest orch1 with
            | .error e => .error e
            | .ok (orch2, more, done) => .ok (orch2, results ++ more, done)
          else .ok (orch1, results, false)
      | none =>
        match run_role cfg.base orch role with
        | .error e => .error e
        | .ok (orch1, attempts, last) =>
          if cfg.base.should_stop last then .ok (orch1, attempts, false)
          else
            match peerBuildLoop cfg rest orch1 with
            | .error e => .error e
            | .ok (orch2, more, done) => .ok (orch2, attempts ++ more, done)

/-- The trailing QA/devops phase of `PeerReviewTopology.run`. -/
def peerTail (cfg : PeerReviewCfg) :
    List String → Orchestrator → Except OErr (Orchestrator × List TurnResult)
  | [], orch => .ok (orch, [])
  | role :: rest, orch =>
    if cfg.base.should_skip role then peerTail cfg rest orch
    else
      match run_role cfg.base orch role with
      | .error e => .error e
      | .ok (orch1, attempts, last) =>
        if cfg.base.should_stop last then .ok (orch1, attempts)
        else
          match peerTail cfg rest orch1 with
          | .error e => .error e
          | .ok (orch2, more) => .ok (orch2, attempts ++ more)

def peerRun (cfg : PeerReviewCfg) (orch : Orchestrator) (kickoff_content : String) :
    Except OErr (Orchestrator × List TurnResult) :=
  match cfg.build_roles with
  | [] => .ok (orch, [])
  | first :: _ =>
    if cfg.base.should_skip cfg.reviewer_role then .ok (orch, [])
    else
      match peerBuildLoop cfg cfg.build_roles (orch.kickoff first kickoff_content) with
      | .error e => .error e
      | .ok (orch1, results, true) =>
        match peerTail cfg [cfg.qa_role, cfg.devops_role] orch1 with
        | .error e => .error e
        | .ok (orch2, more) => .ok (orch2, results ++ more)
      | .ok (orch1, results, false) => .ok (orch1, results)

/-! ## Iterative-feedback topology (`src/topologies/iterative_feedback.py`) -/

structure IterCfg where
  base : BaseCfg := {}
  build_roles : List String := ["pm", "architect", "backend_dev", "frontend_dev"]
  qa_role : String := "qa"
  devops_role : String := "devops"
  max_feedback_iterations : Nat := 2
  max_stagnant_rounds : Nat := 1
  qa_pass_threshold : Rat := 85 / 100
  default_feedback_role : String := "backend_dev"
  feedback_role_map : List (String × String) :=
    [("frontend", "frontend_dev"), ("ui", "frontend_dev"),
     ("backend", "backend_dev"), ("auth", "backend_dev")]

def latest_version (s : ProjectState) (key : String) : Nat :=
  match s.get_latest_artifact key with
  | some a => a.version
  | none => 0

/-- `_qa_gate_passed`, shared between the iterative-feedback topology
(configurable threshold) and the coordinator agent (threshold fixed at 0.85,
the source duplicating the same code): absent artifact, non-dict content and
non-dict summary fail; a missing pass rate defaults to 0.0 and missing
critical bugs default to 1; the `float`/`int` coercions may raise. -/
def qa_gate_passed (threshold : Rat) (s : ProjectState) : Except String Bool :=
  match s.get_latest_artifact "qa_report" with
  | none => .ok false
  | some art =>
    match art.content with
    | .pdict kvs =>
      match (kvs.get "summary").getD (.pdict .nil) with
      | .pdict sk =>
        match pyFloat ((sk.get "test_pass_rate").getD (.pnum 0)) with
        | .error e => .error e
        | .ok pass_rate =>
          match pyToInt ((sk.get "critical_bugs").getD (.pnum 1)) with
          | .error e => .error e
          | .ok critical_bugs =>
            .ok (decide (threshold ≤ pass_rate) && decide (critical_bugs = 0))
      | _ => .ok false
    | _ => .ok false

/-- The QA failure signature, structured; the source renders it to a string
(see `QASig.render`), with missing summary fields shown as `"na"` (`none`
here). -/
inductive QASig where
  | qnone
  | sig (pass_rate critical_bugs major_bugs : Option PyVal) (bug_ids : List String)
deriving DecidableEq

def insertSorted (x : String) : List String → List String
  | [] => [x]
  | y :: rest => if x ≤ y then x :: y :: rest else y :: insertSorted x rest

def sortStrings : List String → List String
  | [] => []
  | x :: rest => insertSorted x (sortStrings rest)

def collectBugIds : List PyVal → List String
  | [] => []
  | .pdict item :: rest =>
    let bug_id := (pyStr ((item.get "bug_id").getD (.pstr ""))).trim
    if bug_id.isEmpty then collectBugIds rest else bug_id :: collectBugIds rest
  | _ :: rest => collectBugIds rest

/-- `_qa_signature`; a present non-dict summary raises (`summary.get` on a
non-dict), while missing `summary` defaults to the empty dict. -/
def qa_signature (s : ProjectState) : Except String QASig :=
  match s.get_latest_artifact "qa_report" with
  | none => .ok .qnone
  | some art =>
    match art.content with
    | .pdict kvs =>
      match (kvs.get "summary").getD (.pdict .nil) with
      | .pdict sk =>
        let bug_ids :=
          match (kvs.get "bug_reports").getD (.plist .nil) with
          | .plist items => sortStrings (collectBugIds items.toList)
          | _ => []
        .ok (.sig (sk.get "test_pass_rate") (sk.get "critical_bugs")
          (sk.get "major_bugs") bug_ids)
      | _ => .error "summary value has no attribute get"
    | _ => .ok .qnone

def renderOpt : Option PyVal → String
  | none => "na"
  | some v => pyStr v

/-- The f-string rendering of the signature used by the source for storage
and comparison (value rendering is `pyStr`'s abstraction of Python `str`). -/
def QASig.render : QASig → String
  | .qnone => "qa:none"
  | .sig pr cb mb ids =>
    "qa:pass_rate=" ++ renderOpt pr ++ "|critical=" ++ renderOpt cb ++
      "|major=" ++ renderOpt mb ++ "|bugs=" ++ String.intercalate "," ids

/-- Python `marker in probe` on strings. -/
def strContainsSub (probe marker : String) : Bool :=
  (probe.toList.tails).any (fun suf => marker.toList.isPrefixOf suf)

def findRoleForBug (map : List (String × String)) (probe : String) : Option String :=
  (map.find? (fun mr => strContainsSub probe mr.1)).map (·.2)

def selectFromBugs (cfg : IterCfg) : List PyVal → Option String
  | [] => none
  | .pdict bug :: rest =>
    let category := (pyStr ((bug.get "category").getD (.pstr ""))).toLower
    let file_path := (pyStr ((bug.get "file").getD (.pstr ""))).toLower
    let probe := category ++ " " ++ file_path
    match findRoleForBug cfg.feedback_role_map probe with
    | some role => some role
    | none => selectFromBugs cfg rest
  | _ :: rest => selectFromBugs cfg rest

def select_feedback_role (cfg : IterCfg) (s : ProjectState) : String :=
  match s.get_latest_artifact "qa_report" with
  | none => cfg.default_feedback_role
  | some art =>
    match art.content with
    | .pdict kvs =>
      match (kvs.get "bug_reports").getD (.plist .nil) with
      | .plist items => (selectFromBugs cfg items.toList).getD cfg.default_feedback_role
      | _ => cfg.default_feedback_role
    | _ => cfg.default_feedback_role

/-- `_append_control_turn`: terminal failure turn for cap/anti-loop exits. -/
def controlTurn (role error : String) : TurnResult :=
  { agent_role := role, success := false, stop := true, error := some error }

def feedbackMessage (role reason : String) (iteration : Nat) : AgentMessage :=
  { sender := "orchestrator", receiver := role,
    content := "Iterative feedback iteration=" ++ toString iteration ++ ": " ++ reason,
    msg_type := .FEEDBACK }

/-- The `while True` QA loop of `IterativeFeedbackTopology.run`. `remaining`
is `max_feedback_iterations - feedback_iteration` (so the cap check
`feedback_iteration >= max_feedback_iterations` is `remaining = 0`);
`feedback_iteration`, `stagnant_rounds`, `prev_sig` and `prev_vers` carry
the loop's counters and the previous failed round's signature/versions. -/
def iterLoop (cfg : IterCfg) :
    Nat → Nat → Nat → Option String → Option (Nat × Nat) → Orchestrator →
    Except OErr (Orchestrator × List TurnResult)
  | remaining, feedback_iteration, stagnant_rounds, prev_sig, prev_vers, orch =>
    if cfg.base.should_skip cfg.qa_role then .ok (orch, [])
    else
      match run_role cfg.base orch cfg.qa_role with
      | .error e => .error e
      | .ok (orch1, qa_attempts, qa_result) =>
        if cfg.base.should_stop qa_result then .ok (orch1, qa_attempts)
        else
          match qa_gate_passed cfg.qa_pass_threshold orch1.state with
          | .error e => .error (e, orch1)
          | .ok true =>
            if cfg.base.should_skip cfg.devops_role then .ok (orch1, qa_attempts)
            else
              match run_role cfg.base orch1 cfg.devops_role with
              | .error e => .error e
              | .ok (orch2, devops_attempts, _) => .ok (orch2, qa_attempts ++ devops_attempts)
          | .ok false =>
            match qa_signature orch1.state with
            | .error e => .error (e, orch1)
            | .ok sig_val =>
              let current_signature := sig_val.render
              let current_versions :=
                (latest_version orch1.state "backend_code",
                 latest_version orch1.state "frontend_code")
              let stagnant :=
                if prev_sig = some current_signature ∧ prev_vers = some current_versions then
                  stagnant_rounds + 1
                else 0
              if cfg.max_stagnant_rounds < stagnant then
                .ok (orch1, qa_attempts ++ [controlTurn cfg.qa_role
                  ("anti-loop triggered: repeated QA failure signature with unchanged code versions for "
                    ++ toString stagnant ++ " rounds")])
              else
                match remaining with
                | 0 =>
                  .ok (orch1, qa_attempts ++ [controlTurn cfg.qa_role
                    ("feedback iteration cap reached: max_feedback_iterations="
                      ++ toString cfg.max_feedback_iterations)])
                | rem + 1 =>
                  let fi := feedback_iteration + 1
                  let orch2 := { orch1 with state := orch1.state.increment_iteration }
                  let feedback_role := select_feedback_role cfg orch2.state
                  let orch3 := orch2.route_message (feedbackMessage feedback_role
                    ("qa gate failed (" ++ current_signature ++ ")") fi)
                  if cfg.base.should_skip feedback_role then
                    match iterLoop cfg rem fi stagnant
                        (some current_signature) (some current_versions) orch3 with
                    | .error e => .error e
                    | .ok (orch5, rest) => .ok (orch5, qa_attempts ++ rest)
                  else
                    match run_role cfg.base orch3 feedback_role with
                    | .error e => .error e
                    | .ok (orch4, f_attempts, f_result) =>
                      if cfg.base.should_stop f_result then
                        .ok (orch4, qa_attempts ++ f_attempts)
                      else
                        match iterLoop cfg rem fi stagnant
                            (some current_signature) (some current_versions) orch4 with
                        | .error e => .error e
                        | .ok (orch5, rest) => .ok (orch5, qa_attempts ++ f_attempts ++ rest)

def iterBuildLoop (cfg : IterCfg) :
    List String → Orchestrator → Except OErr (Orchestrator × List TurnResult × Bool)
  | [], orch => .ok (orch, [], true)
  | role :: rest, orch =>
    if cfg.base.should_skip role then iterBuildLoop cfg rest orch
    else
      match run_role cfg.base orch role with
      | .error e => .error e
      | .ok (orch1, attempts, last) =>
        if cfg.base.should_stop last then .ok (orch1, attempts, false)
        else
          match iterBuildLoop cfg rest orch1 with
          | .error e => .error e
          | .ok (orch2, more, done) => .ok (orch2, attempts ++ more, done)

def iterRun (cfg : IterCfg) (orch : Orchestrator) (kickoff_content : String) :
    Except OErr (Orchestrator × List TurnResult) :=
  match cfg.build_roles with
  | [] => .ok (orch, [])
  | _ :: _ =>
    match cfg.build_roles.find? (fun r => !cfg.base.should_skip r) with
    | none => .ok (orch, [])
    | some first =>
      match iterBuildLoop cfg cfg.build_roles (orch.kickoff first kickoff_content) with
      | .error e => .error e
      | .ok (orch1, results, true) =>
        match iterLoop cfg cfg.max_feedback_iterations 0 0 none none orch1 with
        | .error e => .error e
        | .ok (orch2, more) => .ok (orch2, results ++ more)
      | .ok (orch1, results, false) => .ok (orch1, results)

/-! ## Hub-and-spoke topology (`src/topologies/hub_spoke.py`) -/

structure HubCfg where
  base : BaseCfg := {}
  coordinator_role : String := "coordinator"
  spoke_roles : List String :=
    ["pm", "architect", "backend_dev", "frontend_dev", "qa", "devops"]
  max_cycles : Nat := 32

def isCoordinatorTask (cfg : HubCfg) (m : AgentMessage) : Bool :=
  decide (m.sender = cfg.coordinator_role) && decide (m.msg_type = MessageType.TASK) &&
    decide (m.receiver ∈ cfg.spoke_roles)

/-- `_latest_coordinator_route`: newest-first scan of the message log for a
coordinator TASK message to a known spoke role. -/
def latest_coordinator_route (cfg : HubCfg) (s : ProjectState) : Option String :=
  (s.message_log.reverse.find? (isCoordinatorTask cfg)).map (·.receiver)

def spokeStatusMessage (cfg : HubCfg) (role : String) (result : TurnResult) : AgentMessage :=
  { sender := role, receiver := cfg.coordinator_role,
    content := "Spoke turn finished: success=" ++ toString result.success ++
      ", stop=" ++ toString result.stop,
    msg_type := .STATUS }

/-- The spoke half of one hub cycle: run the routed role, send the STATUS
message back, bump the iteration on success; the `Bool` says whether the
run continues. -/
def hubSpokeTurn (cfg : HubCfg) (next_role : String) (orch1 : Orchestrator) :
    Except OErr (Orchestrator × List TurnResult × Bool) :=
  match run_role cfg.base orch1 next_role with
  | .error e => .error e
  | .ok (orch2, s_attempts, s_result) =>
    let orch3 := orch2.route_message (spokeStatusMessage cfg next_role s_result)
    let orch4 :=
      if s_result.success then { orch3 with state := orch3.state.increment_iteration }
      else orch3
    .ok (orch4, s_attempts, !cfg.base.should_stop s_result)

/-- One iteration of the `for _ in range(max_cycles)` loop of
`HubAndSpokeTopology.run`; the `Bool` says whether the loop continues. -/
def hubCycle (cfg : HubCfg) (orch : Orchestrator) :
    Except OErr (Orchestrator × List TurnResult × Bool) :=
  match run_role cfg.base orch cfg.coordinator_role with
  | .error e => .error e
  | .ok (orch1, c_attempts, c_last) =>
    if cfg.base.should_stop c_last then .ok (orch1, c_attempts, false)
    else
      match latest_coordinator_route cfg orch1.state with
      | none => .ok (orch1, c_attempts, false)
      | some next_role =>
        if cfg.base.should_skip next_role then .ok (orch1, c_attempts, true)
        else
          match hubSpokeTurn cfg next_role orch1 with
          | .error e => .error e
          | .ok (orch4, s_attempts, s_cont) =>
            .ok (orch4, c_attempts ++ s_attempts, s_cont)

def hubLoop (cfg : HubCfg) : Nat → Orchestrator → Except OErr (Orchestrator × List TurnResult)
  | 0, orch => .ok (orch, [])
  | fuel + 1, orch =>
    match hubCycle cfg orch with
    | .error e => .error e
    | .ok (orch1, results, cont) =>
      if cont then
        match hubLoop cfg fuel orch1 with
        | .error e => .error e
        | .ok (orch2, more) => .ok (orch2, results ++ more)
      else .ok (orch1, results)

def hubRun (cfg : HubCfg) (orch : Orchestrator) (kickoff_content : String) :
    Except OErr (Orchestrator × List TurnResult) :=
  if cfg.base.should_skip cfg.coordinator_role then .ok (orch, [])
  else hubLoop cfg cfg.max_cycles (orch.kickoff cfg.coordinator_role kickoff_content)

/-! ## Coordinator agent (`src/agents/coordinator_agent.py`)

`qa_retry_count` is the agent's private mutable counter; the embedding
threads it explicitly. -/

structure CoordinatorCfg where
  role : String := "coordinator"
  max_qa_retries : Nat := 1
  qa_fallback_role : String := "backend_dev"

/-- `CoordinatorAgent._qa_gate_passed`: the same gate logic with the
threshold fixed at 0.85 (the source duplicates the code; the bodies
coincide, so the shared definition is reused). -/
def coordinator_qa_gate (s : ProjectState) : Except String Bool :=
  qa_gate_passed (85 / 100) s

/-- `CoordinatorAgent._decide_next_role`: next role (or stop) plus reason,
with the updated retry counter. -/
def coordinator_decide (cfg : CoordinatorCfg) (qa_retry_count : Nat) (s : ProjectState) :
    Except String ((Option String × String) × Nat) :=
  if s.requirements = PyVal.pnone then
    .ok ((some "pm", "requirements missing"), qa_retry_count)
  else if s.architecture = PyVal.pnone then
    .ok ((some "architect", "architecture missing"), qa_retry_count)
  else if s.backend_code = PyVal.pnone then
    .ok ((some "backend_dev", "backend implementation missing"), qa_retry_count)
  else if s.frontend_code = PyVal.pnone then
    .ok ((some "frontend_dev", "frontend implementation missing"), qa_retry_count)
  else if s.qa_report = PyVal.pnone then
    .ok ((some "qa", "qa validation pending"), qa_retry_count)
  else if s.deployment ≠ PyVal.pnone then
    .ok ((none, "deployment completed"), qa_retry_count)
  else
    match coordinator_qa_gate s with
    | .error e => .error e
    | .ok true => .ok ((some "devops", "qa gate passed"), qa_retry_count)
    | .ok false =>
      let qa_version := latest_version s "qa_report"
      let backend_version := latest_version s "backend_code"
      let frontend_version := latest_version s "frontend_code"
      if qa_version < max backend_version frontend_version then
        .ok ((some "qa", "re-run qa after code changes"), qa_retry_count)
      else if qa_retry_count < cfg.max_qa_retries then
        .ok ((some cfg.qa_fallback_role, "qa gate failed, request rework"), qa_retry_count + 1)
      else
        .ok ((none, "qa gate failed after retry budget"), qa_retry_count)

/-- `CoordinatorAgent.act`. -/
def coordinator_act (cfg : CoordinatorCfg) (qa_retry_count : Nat) (s : ProjectState) :
    Except String (AgentOutput × Nat) :=
  match coordinator_decide cfg qa_retry_count s with
  | .error e => .error e
  | .ok ((none, reason), count) =>
    let msg : AgentMessage :=
      { sender := cfg.role, receiver := "orchestrator",
        content := "Coordinator stop: " ++ reason, msg_type := .STATUS }
    .ok ({ messages := [msg], usage_tokens := 180, usage_api_calls := 1, stop := true }, count)
  | .ok ((some next_role, reason), count) =>
    let msg : AgentMessage :=
      { sender := cfg.role, receiver := next_role,
        content := "Coordinator route -> " ++ next_role ++ ": " ++ reason, msg_type := .TASK }
    .ok ({ messages := [msg], usage_tokens := 180, usage_api_calls := 1 }, count)

/-! ## Theorems: orchestrator-level claims (C1, C2, C8, C9) -/

/-- C1: an executor exception is caught: `run_turn` returns (does not
propagate) a failed `TurnResult` carrying the exception message, appends it
to the turn history, and leaves the project state — lifecycle fields,
artifacts, messages, usage counters — entirely unchanged (the returned
orchestrator differs from the input only in `turn_history`). -/
theorem run_turn_executor_failure (orch : Orchestrator) (role : String) (agent : Agent)
    (msg : String)
    (hreg : orch.agents role = some agent)
    (hact : agent.act orch.state = .error msg) :
    ∃ res : TurnResult,
      run_turn orch role =
        .ok ({ orch with turn_history := orch.turn_history ++ [res] }, res) ∧
      res.agent_role = role ∧ res.success = false ∧ res.error = some msg ∧
      res.stop = false ∧ res.artifacts_registered = [] ∧ res.messages_emitted = 0 ∧
      res.usage_tokens = 0 ∧ res.usage_api_calls = 0 ∧ res.updated_fields = [] := by
  refine ⟨{ agent_role := role, success := false, error := some msg }, ?_, by simp⟩
  simp [run_turn, hreg, hact]

def failingAgent : Agent :=
  { act := fun _ => .error "backend generator exploded",
    review := fun a => { status := .APPROVED, comments := [], reviewer := "r" } }

def orchWithFailingDev : Orchestrator :=
  { state := {}, agents := fun r => if r = "backend_dev" then some failingAgent else none }

theorem run_turn_executor_failure_witness :
    ∃ res : TurnResult,
      run_turn orchWithFailingDev "backend_dev" =
        .ok ({ orchWithFailingDev with
                turn_history := orchWithFailingDev.turn_history ++ [res] }, res) ∧
      res.agent_role = "backend_dev" ∧ res.success = false ∧
      res.error = some "backend generator exploded" ∧
      res.stop = false ∧ res.artifacts_registered = [] ∧ res.messages_emitted = 0 ∧
      res.usage_tokens = 0 ∧ res.usage_api_calls = 0 ∧ res.updated_fields = [] :=
  run_turn_executor_failure orchWithFailingDev "backend_dev" failingAgent
    "backend generator exploded" rfl rfl

/-- `N` register calls under one key, in order, starting from `store`. -/
def registerAll (store : ArtifactStore) (key : String) : List Artifact → ArtifactStore
  | [] => store
  | a :: rest => registerAll (store.register key a).1 key rest

theorem register_self (store : ArtifactStore) (key : String) (a : Artifact) :
    (store.register key a).1 key =
      store key ++ [{ a with version := (store key).length + 1 }] := by
  simp [ArtifactStore.register]

theorem registerAll_map_version (key : String) (arts : List Artifact) :
    ∀ store : ArtifactStore,
      ((registerAll store key arts) key).map (·.version) =
        (store key).map (·.version) ++
          List.range' ((store key).length + 1) arts.length := by
  induction arts with
  | nil => intro store; simp [registerAll]
  | cons _a rest ih =>
    intro store
    rw [registerAll, ih, register_self]
    simp [List.range'_succ]

/-- C2: artifact-store versioning invariant: after `N` registrations under a
key the stored versions are exactly `1..N` in registration order,
`get_latest` returns the version-`N` artifact, `get_version` returns `none`
exactly outside `1..N` and the version-`i` artifact inside, and `get_latest`
on a never-registered key returns `none` rather than failing. -/
theorem artifact_store_versioning (key : String) (arts : List Artifact) :
    ((registerAll ArtifactStore.empty key arts) key).map (·.version) =
        List.range' 1 arts.length ∧
    (arts.length ≠ 0 → ∃ a, (registerAll ArtifactStore.empty key arts).get_latest key =
        some a ∧ a.version = arts.length) ∧
    (∀ i : Int, i ≤ 0 ∨ (arts.length : Int) < i →
      (registerAll ArtifactStore.empty key arts).get_version key i = none) ∧
    (∀ i : Int, 0 < i → i ≤ (arts.length : Int) →
      ∃ a, (registerAll ArtifactStore.empty key arts).get_version key i = some a ∧
        (a.version : Int) = i) ∧
    (∀ k : String, ArtifactStore.empty.get_latest k = none) := by
  have hmap := registerAll_map_version key arts ArtifactStore.empty
  simp only [ArtifactStore.empty, List.map_nil, List.length_nil, List.nil_append,
    Nat.zero_add] at hmap
  have hlen : ((registerAll ArtifactStore.empty key arts) key).length = arts.length := by
    have := congrArg List.length hmap
    simpa using this
  refine ⟨hmap, ?_, ?_, ?_, ?_⟩
  · intro hne
    have hlast := congrArg List.getLast? hmap
    rw [List.getLast?_map, List.getLast?_range'] at hlast
    rw [if_neg hne] at hlast
    cases hget : ((registerAll ArtifactStore.empty key arts) key).getLast? with
    | none => rw [hget] at hlast; simp at hlast
    | some a =>
      rw [hget] at hlast
      simp only [Option.map_some'] at hlast
      refine ⟨a, hget, ?_⟩
      have := Option.some.inj hlast
      omega
  · intro i hi
    simp only [ArtifactStore.get_version]
    rw [hlen]
    exact if_pos (by omega)
  · intro i hpos hle
    simp only [ArtifactStore.get_version]
    rw [hlen]
    rw [if_neg (by omega)]
    have hidx : i.toNat - 1 < arts.length := by omega
    have helem := congrArg (fun l => l[i.toNat - 1]?) hmap
    simp only [List.getElem?_map] at helem
    rw [List.getElem?_range' _ _ hidx] at helem
    cases hget : ((registerAll ArtifactStore.empty key arts) key)[i.toNat - 1]? with
    | none => rw [hget] at helem; simp at helem
    | some a =>
      rw [hget] at helem
      simp only [Option.map_some'] at helem
      refine ⟨a, rfl, ?_⟩
      have := Option.some.inj helem
      omega
  · intro k
    simp [ArtifactStore.get_latest, ArtifactStore.empty]

def artTemplate : Artifact :=
  { artifact_id := "a", artifact_type := "backend_code", producer := "backend_dev",
    content := .pnone, version := 0 }

theorem artifact_store_versioning_witness :
    ((registerAll ArtifactStore.empty "backend_code" [artTemplate, artTemplate])
        "backend_code").map (·.version) = [1, 2] ∧
    (∃ a, (registerAll ArtifactStore.empty "backend_code" [artTemplate, artTemplate]).get_latest
        "backend_code" = some a ∧ a.version = 2) ∧
    (registerAll ArtifactStore.empty "backend_code"
        [artTemplate, artTemplate]).get_version "backend_code" (-1) = none ∧
    (registerAll ArtifactStore.empty "backend_code"
        [artTemplate, artTemplate]).get_version "backend_code" 3 = none ∧
    (∃ a, (registerAll ArtifactStore.empty "backend_code"
        [artTemplate, artTemplate]).get_version "backend_code" 1 = some a ∧
      (a.version : Int) = 1) ∧
    ArtifactStore.empty.get_latest "frontend_code" = none := by
  obtain ⟨h1, h2, h3, h4, h5⟩ :=
    artifact_store_versioning "backend_code" [artTemplate, artTemplate]
  exact ⟨h1, h2 (by decide), h3 (-1) (by omega), h3 3 (by norm_num),
    h4 1 (by omega) (by norm_num), h5 "frontend_code"⟩

theorem setLifecycleField_frame (s : ProjectState) (k : String) (v : PyVal) :
    (setLifecycleField s k v).run_id = s.run_id ∧
    (setLifecycleField s k v).created_at = s.created_at ∧
    (setLifecycleField s k v).updated_at = s.updated_at ∧
    (setLifecycleField s k v).iteration = s.iteration ∧
    (setLifecycleField s k v).total_tokens = s.total_tokens ∧
    (setLifecycleField s k v).total_api_calls = s.total_api_calls ∧
    (setLifecycleField s k v).artifact_store = s.artifact_store ∧
    (setLifecycleField s k v).message_log = s.message_log := by
  unfold setLifecycleField
  split_ifs <;> simp

theorem applyUpdatesCore_frame (updates : List (String × PyVal)) :
    ∀ s : ProjectState,
      (applyUpdatesCore s updates).1.run_id = s.run_id ∧
      (applyUpdatesCore s updates).1.created_at = s.created_at ∧
      (applyUpdatesCore s updates).1.updated_at = s.updated_at ∧
      (applyUpdatesCore s updates).1.iteration = s.iteration ∧
      (applyUpdatesCore s updates).1.total_tokens = s.total_tokens ∧
      (applyUpdatesCore s updates).1.total_api_calls = s.total_api_calls ∧
      (applyUpdatesCore s updates).1.artifact_store = s.artifact_store ∧
      (applyUpdatesCore s updates).1.message_log = s.message_log := by
  induction updates with
  | nil => intro s; simp [applyUpdatesCore]
  | cons kv rest ih =>
    intro s
    obtain ⟨k, v⟩ := kv
    by_cases hk : k ∈ STATE_UPDATE_FIELDS
    · have h1 := ih (setLifecycleField s k v)
      have h2 := setLifecycleField_frame s k v
      simp only [applyUpdatesCore, if_pos hk]
      exact ⟨h1.1.trans h2.1, h1.2.1.trans h2.2.1, h1.2.2.1.trans h2.2.2.1,
        h1.2.2.2.1.trans h2.2.2.2.1, h1.2.2.2.2.1.trans h2.2.2.2.2.1,
        h1.2.2.2.2.2.1.trans h2.2.2.2.2.2.1, h1.2.2.2.2.2.2.1.trans h2.2.2.2.2.2.2.1,
        h1.2.2.2.2.2.2.2.trans h2.2.2.2.2.2.2.2⟩
    · simpa only [applyUpdatesCore, if_neg hk] using ih s

theorem applyUpdatesCore_filter (updates : List (String × PyVal)) :
    ∀ s : ProjectState,
      applyUpdatesCore s updates =
        applyUpdatesCore s
          (updates.filter (fun kv => decide (kv.1 ∈ STATE_UPDATE_FIELDS))) := by
  induction updates with
  | nil => intro s; simp
  | cons kv rest ih =>
    intro s
    obtain ⟨k, v⟩ := kv
    by_cases hk : k ∈ STATE_UPDATE_FIELDS
    · simp only [applyUpdatesCore, if_pos hk, List.filter_cons, decide_eq_true hk]
      rw [ih]
    · simp only [applyUpdatesCore, if_neg hk, List.filter_cons]
      rw [decide_eq_false hk]
      simp only [Bool.false_eq_true, if_false]
      exact ih s

/-- C8: applying an executor's `state_updates` changes at most the six
whitelisted lifecycle fields: keys outside the whitelist are silently
ignored (filtering them away yields the identical result), and `run_id`,
`created_at`, `iteration`, both usage counters, the artifact store and the
message log are untouched. -/
theorem state_update_whitelist (s : ProjectState) (updates : List (String × PyVal)) :
    (apply_state_updates s updates).1.run_id = s.run_id ∧
    (apply_state_updates s updates).1.created_at = s.created_at ∧
    (apply_state_updates s updates).1.iteration = s.iteration ∧
    (apply_state_updates s updates).1.total_tokens = s.total_tokens ∧
    (apply_state_updates s updates).1.total_api_calls = s.total_api_calls ∧
    (apply_state_updates s updates).1.artifact_store = s.artifact_store ∧
    (apply_state_updates s updates).1.message_log = s.message_log ∧
    apply_state_updates s updates =
      apply_state_updates s
        (updates.filter (fun kv => decide (kv.1 ∈ STATE_UPDATE_FIELDS))) := by
  obtain ⟨f1, f2, _f3, f4, f5, f6, f7, f8⟩ := applyUpdatesCore_frame updates s
  have hfilter := applyUpdatesCore_filter updates s
  simp only [apply_state_updates]
  rw [← hfilter]
  refine ⟨?_, ?_, ?_, ?_, ?_, ?_, ?_, rfl⟩ <;>
    split_ifs <;> simp [ProjectState.touch, f1, f2, f4, f5, f6, f7, f8]

/-- An artifact entry whose store key is present and non-falsy (it will not
raise in `_register_artifacts`). -/
def ArtifactEntry.goodKey (e : ArtifactEntry) : Bool :=
  match e.storeKey with
  | none => false
  | some k => !k.isEmpty

theorem register_artifact_frame (s : ProjectState) (key : String) (a : Artifact) :
    (s.register_artifact key a).1.total_tokens = s.total_tokens ∧
    (s.register_artifact key a).1.total_api_calls = s.total_api_calls ∧
    (s.register_artifact key a).1.message_log = s.message_log := by
  simp [ProjectState.register_artifact, ProjectState.touch, ArtifactStore.register]

theorem register_artifacts_ok_frame (role : String) (entries : List ArtifactEntry) :
    ∀ (s sMid : ProjectState) (refs : List String),
      register_artifacts role s entries = .ok (sMid, refs) →
      sMid.total_tokens = s.total_tokens ∧ sMid.total_api_calls = s.total_api_calls ∧
      sMid.message_log = s.message_log := by
  induction entries with
  | nil =>
    intro s sMid refs h
    simp only [register_artifacts, Except.ok.injEq, Prod.mk.injEq] at h
    rw [← h.1]
    exact ⟨rfl, rfl, rfl⟩
  | cons e rest ih =>
    intro s sMid refs h
    simp only [register_artifacts] at h
    cases hsk : e.storeKey with
    | none => simp only [hsk] at h; simp at h
    | some k =>
      simp only [hsk] at h
      by_cases hk : k.isEmpty = true
      · rw [if_pos hk] at h; simp at h
      · rw [if_neg hk] at h
        cases hrec : register_artifacts role
            ((s.register_artifact k
              (if e.artifact.producer = "" then { e.artifact with producer := role }
               else e.artifact)).1) rest with
        | error sErr => rw [hrec] at h; simp at h
        | ok p =>
          obtain ⟨s2, refs2⟩ := p
          rw [hrec] at h
          simp only [Except.ok.injEq, Prod.mk.injEq] at h
          obtain ⟨hs, _⟩ := h
          obtain ⟨t1, t2, t3⟩ := ih _ _ _ hrec
          obtain ⟨u1, u2, u3⟩ := register_artifact_frame s k
            (if e.artifact.producer = "" then { e.artifact with producer := role }
             else e.artifact)
          rw [← hs]
          exact ⟨t1.trans u1, t2.trans u2, t3.trans u3⟩

theorem register_artifacts_partial (role : String) (bad : Artifact)
    (rest : List ArtifactEntry) (pre : List ArtifactEntry) :
    ∀ s : ProjectState, (∀ e ∈ pre, e.goodKey = true) →
      ∃ sMid refs, register_artifacts role s pre = .ok (sMid, refs) ∧
        register_artifacts role s (pre ++ ArtifactEntry.keyed none bad :: rest) =
          .error sMid := by
  induction pre with
  | nil =>
    intro s _
    exact ⟨s, [], rfl, by simp [register_artifacts, ArtifactEntry.storeKey]⟩
  | cons e pre ih =>
    intro s hgood
    have he : e.goodKey = true := hgood e (by simp)
    cases hsk : e.storeKey with
    | none =>
      simp only [ArtifactEntry.goodKey, hsk] at he
      exact absurd he (by decide)
    | some k =>
      have hk : ¬ k.isEmpty = true := by
        simp only [ArtifactEntry.goodKey, hsk] at he
        simpa using he
      obtain ⟨sMid, refs, hok, herr⟩ :=
        ih ((s.register_artifact k
            (if e.artifact.producer = "" then
              { artifact_id := e.artifact.artifact_id,
                artifact_type := e.artifact.artifact_type, producer := role,
                content := e.artifact.content, version := e.artifact.version }
             else e.artifact)).1)
          (fun x hx => hgood x (List.mem_cons_of_mem e hx))
      refine ⟨sMid,
        (k ++ ":v" ++ toString
          ((s.register_artifact k
            (if e.artifact.producer = "" then
              { artifact_id := e.artifact.artifact_id,
                artifact_type := e.artifact.artifact_type, producer := role,
                content := e.artifact.content, version := e.artifact.version }
             else e.artifact)).2.version)) :: refs, ?_, ?_⟩
      · simp only [register_artifacts, hsk, if_neg hk, hok]
      · simp only [List.cons_append, register_artifacts, hsk, if_neg hk, List.append_eq, herr]

/-- C9: a malformed (but non-raising) executor output — an artifact dict
entry providing no usable store key — makes `run_turn` raise a propagating
`ValueError` after usage deltas and lifecycle updates have been merged and
all earlier artifact entries registered; the escaping orchestrator carries
that partially applied state, an unchanged message log, and an unchanged
turn history (no `TurnResult` is appended). -/
theorem run_turn_malformed_entry (orch : Orchestrator) (role : String) (agent : Agent)
    (out : AgentOutput) (pre rest : List ArtifactEntry) (bad : Artifact)
    (hreg : orch.agents role = some agent)
    (hact : agent.act orch.state = .ok out)
    (hart : out.artifacts = pre ++ ArtifactEntry.keyed none bad :: rest)
    (hgood : ∀ e ∈ pre, e.goodKey = true) :
    ∃ (sMid : ProjectState) (refs : List String),
      register_artifacts role
        (apply_state_updates
          (if out.usage_tokens ≠ 0 ∨ out.usage_api_calls ≠ 0 then
            orch.state.update_usage out.usage_tokens out.usage_api_calls
          else orch.state) out.state_updates).1 pre = .ok (sMid, refs) ∧
      run_turn orch role =
        .error ("Artifact entry must provide store_key or artifact_type",
          { orch with state := sMid }) ∧
      sMid.total_tokens = orch.state.total_tokens + out.usage_tokens ∧
      sMid.total_api_calls = orch.state.total_api_calls + out.usage_api_calls ∧
      sMid.message_log = orch.state.message_log := by
  obtain ⟨sMid, refs, hok, herr⟩ := register_artifacts_partial role bad rest pre
    (apply_state_updates
      (if out.usage_tokens ≠ 0 ∨ out.usage_api_calls ≠ 0 then
        orch.state.update_usage out.usage_tokens out.usage_api_calls
      else orch.state) out.state_updates).1 hgood
  refine ⟨sMid, refs, hok, ?_, ?_, ?_, ?_⟩
  · rw [run_turn, hreg]
    simp only [hact, hart, herr]
  · obtain ⟨t1, _, _⟩ := register_artifacts_ok_frame role pre _ _ _ hok
    obtain ⟨f1, f2, f3, f4, f5, f6, f7, f8⟩ := applyUpdatesCore_frame out.state_updates
      (if out.usage_tokens ≠ 0 ∨ out.usage_api_calls ≠ 0 then
        orch.state.update_usage out.usage_tokens out.usage_api_calls
      else orch.state)
    rw [t1]
    simp only [apply_state_updates]
    split_ifs with h1 h2 h2 <;>
      simp_all [ProjectState.touch, ProjectState.update_usage]
  · obtain ⟨_, t2, _⟩ := register_artifacts_ok_frame role pre _ _ _ hok
    obtain ⟨f1, f2, f3, f4, f5, f6, f7, f8⟩ := applyUpdatesCore_frame out.state_updates
      (if out.usage_tokens ≠ 0 ∨ out.usage_api_calls ≠ 0 then
        orch.state.update_usage out.usage_tokens out.usage_api_calls
      else orch.state)
    rw [t2]
    simp only [apply_state_updates]
    split_ifs with h1 h2 h2 <;>
      simp_all [ProjectState.touch, ProjectState.update_usage]
  · obtain ⟨_, _, t3⟩ := register_artifacts_ok_frame role pre _ _ _ hok
    obtain ⟨f1, f2, f3, f4, f5, f6, f7, f8⟩ := applyUpdatesCore_frame out.state_updates
      (if out.usage_tokens ≠ 0 ∨ out.usage_api_calls ≠ 0 then
        orch.state.update_usage out.usage_tokens out.usage_api_calls
      else orch.state)
    rw [t3]
    simp only [apply_state_updates]
    split_ifs with h1 h2 h2 <;>
      simp_all [ProjectState.touch, ProjectState.update_usage]

def unkeyedArt : Artifact :=
  { artifact_id := "b", artifact_type := "", producer := "",
    content := .pnone, version := 0 }

def malformedOut : AgentOutput :=
  { artifacts := [ArtifactEntry.keyed (some "backend_code") artTemplate,
      ArtifactEntry.keyed none unkeyedArt],
    usage_tokens := 5, usage_api_calls := 1 }

def malformedAgent : Agent :=
  { act := fun _ => .ok malformedOut,
    review := fun _ => { status := .APPROVED, comments := [], reviewer := "r" } }

def orchMalformed : Orchestrator :=
  { state := {}, agents := fun r => if r = "backend_dev" then some malformedAgent else none }

theorem run_turn_malformed_entry_witness :
    ∃ (sMid : ProjectState) (refs : List String),
      register_artifacts "backend_dev"
        (apply_state_updates
          (if malformedOut.usage_tokens ≠ 0 ∨ malformedOut.usage_api_calls ≠ 0 then
            orchMalformed.state.update_usage malformedOut.usage_tokens
              malformedOut.usage_api_calls
          else orchMalformed.state) malformedOut.state_updates).1
        [ArtifactEntry.keyed (some "backend_code") artTemplate] = .ok (sMid, refs) ∧
      run_turn orchMalformed "backend_dev" =
        .error ("Artifact entry must provide store_key or artifact_type",
          { orchMalformed with state := sMid }) ∧
      sMid.total_tokens = orchMalformed.state.total_tokens + malformedOut.usage_tokens ∧
      sMid.total_api_calls =
        orchMalformed.state.total_api_calls + malformedOut.usage_api_calls ∧
      sMid.message_log = orchMalformed.state.message_log :=
  run_turn_malformed_entry orchMalformed "backend_dev" malformedAgent malformedOut
    [ArtifactEntry.keyed (some "backend_code") artTemplate] [] unkeyedArt
    rfl rfl rfl (by decide)

/-! ## Theorems: QA gate (C10) -/

theorem qa_gate_true_char (th : Rat) (s : ProjectState)
    (hgate : qa_gate_passed th s = .ok true) :
    ∃ art kvs sk, s.get_latest_artifact "qa_report" = some art ∧
      art.content = .pdict kvs ∧
      (kvs.get "summary").getD (.pdict .nil) = .pdict sk ∧
      (∃ r, pyFloat ((sk.get "test_pass_rate").getD (.pnum 0)) = .ok r ∧ th ≤ r) ∧
      pyToInt ((sk.get "critical_bugs").getD (.pnum 1)) = .ok 0 := by
  cases hlatest : s.get_latest_artifact "qa_report" with
  | none => simp only [qa_gate_passed, hlatest] at hgate; simp at hgate
  | some art =>
    simp only [qa_gate_passed, hlatest] at hgate
    cases hcontent : art.content with
    | pstr v => simp only [hcontent] at hgate; simp at hgate
    | pnum v => simp only [hcontent] at hgate; simp at hgate
    | pbool v => simp only [hcontent] at hgate; simp at hgate
    | pnone => simp only [hcontent] at hgate; simp at hgate
    | plist v => simp only [hcontent] at hgate; simp at hgate
    | pdict kvs =>
      simp only [hcontent] at hgate
      cases hsum : (kvs.get "summary").getD (.pdict .nil) with
      | pstr v => simp only [hsum] at hgate; simp at hgate
      | pnum v => simp only [hsum] at hgate; simp at hgate
      | pbool v => simp only [hsum] at hgate; simp at hgate
      | pnone => simp only [hsum] at hgate; simp at hgate
      | plist v => simp only [hsum] at hgate; simp at hgate
      | pdict sk =>
        simp only [hsum] at hgate
        cases hfl : pyFloat ((sk.get "test_pass_rate").getD (.pnum 0)) with
        | error e => simp only [hfl] at hgate; simp at hgate
        | ok r =>
          simp only [hfl] at hgate
          cases hint : pyToInt ((sk.get "critical_bugs").getD (.pnum 1)) with
          | error e => simp only [hint] at hgate; simp at hgate
          | ok cb =>
            simp only [hint, Except.ok.injEq] at hgate
            simp only [Bool.and_eq_true, decide_eq_true_eq] at hgate
            refine ⟨art, kvs, sk, rfl, hcontent, hsum, ⟨r, hfl, hgate.1⟩, ?_⟩
            rw [hint, hgate.2]

/-- C10 (amended): the QA gate fails closed on missing or malformed data —
an absent `qa_report`, non-mapping content, or non-mapping summary all fail;
an omitted `test_pass_rate` defaults to 0.0 and an omitted `critical_bugs`
defaults to 1, so whenever the pass threshold is positive (the coordinator's
gate fixes it at 0.85) the gate can pass only when the summary carries an
explicit pass-rate value coercing to at least the threshold and an explicit
`critical_bugs` value coercing to integer 0. -/
theorem qa_gate_fails_closed :
    (∀ (th : Rat) (s : ProjectState), s.get_latest_artifact "qa_report" = none →
      qa_gate_passed th s = .ok false) ∧
    (∀ (th : Rat) (s : ProjectState) (art : Artifact),
      s.get_latest_artifact "qa_report" = some art →
      (∀ kvs, art.content ≠ .pdict kvs) → qa_gate_passed th s = .ok false) ∧
    (∀ (th : Rat) (s : ProjectState) (art : Artifact) (kvs : PyDict) (v : PyVal),
      s.get_latest_artifact "qa_report" = some art →
      art.content = .pdict kvs → kvs.get "summary" = some v →
      (∀ sk, v ≠ .pdict sk) → qa_gate_passed th s = .ok false) ∧
    (∀ (th : Rat) (s : ProjectState) (art : Artifact) (kvs : PyDict) (sk : PyDict),
      0 < th → s.get_latest_artifact "qa_report" = some art →
      art.content = .pdict kvs → (kvs.get "summary").getD (.pdict .nil) = .pdict sk →
      sk.get "test_pass_rate" = none → qa_gate_passed th s ≠ .ok true) ∧
    (∀ (th : Rat) (s : ProjectState) (art : Artifact) (kvs : PyDict) (sk : PyDict),
      s.get_latest_artifact "qa_report" = some art →
      art.content = .pdict kvs → (kvs.get "summary").getD (.pdict .nil) = .pdict sk →
      sk.get "critical_bugs" = none → qa_gate_passed th s ≠ .ok true) ∧
    (∀ (th : Rat) (s : ProjectState), qa_gate_passed th s = .ok true → 0 < th →
      ∃ art kvs sk v r, s.get_latest_artifact "qa_report" = some art ∧
        art.content = .pdict kvs ∧ (kvs.get "summary").getD (.pdict .nil) = .pdict sk ∧
        sk.get "test_pass_rate" = some v ∧ pyFloat v = .ok r ∧ th ≤ r) ∧
    (∀ (th : Rat) (s : ProjectState), qa_gate_passed th s = .ok true →
      ∃ art kvs sk v, s.get_latest_artifact "qa_report" = some art ∧
        art.content = .pdict kvs ∧ (kvs.get "summary").getD (.pdict .nil) = .pdict sk ∧
        sk.get "critical_bugs" = some v ∧ pyToInt v = .ok 0) ∧
    (∀ s : ProjectState, coordinator_qa_gate s = qa_gate_passed (85 / 100) s) := by
  refine ⟨?_, ?_, ?_, ?_, ?_, ?_, ?_, fun _ => rfl⟩
  · intro th s h
    simp only [qa_gate_passed, h]
  · intro th s art hlatest hnot
    simp only [qa_gate_passed, hlatest]
  · intro th s art kvs v hlatest hcontent hsum hnot
    simp only [qa_gate_passed, hlatest, hcontent, hsum, Option.getD_some]
  · intro th s art kvs sk hth hlatest hcontent hsum hmiss hgate
    obtain ⟨art2, kvs2, sk2, hl2, hc2, hs2, ⟨r, hfl, hle⟩, _⟩ := qa_gate_true_char th s hgate
    rw [hlatest] at hl2
    obtain rfl : art2 = art := (Option.some.inj hl2).symm
    rw [hcontent] at hc2
    obtain rfl : kvs2 = kvs := (PyVal.pdict.inj hc2).symm
    rw [hsum] at hs2
    obtain rfl : sk2 = sk := (PyVal.pdict.inj hs2).symm
    rw [hmiss] at hfl
    simp only [Option.getD_none, pyFloat, Except.ok.injEq] at hfl
    rw [← hfl] at hle
    exact absurd hle (by exact not_le.mpr hth)
  · intro th s art kvs sk hlatest hcontent hsum hmiss hgate
    obtain ⟨art2, kvs2, sk2, hl2, hc2, hs2, _, hint⟩ := qa_gate_true_char th s hgate
    rw [hlatest] at hl2
    obtain rfl : art2 = art := (Option.some.inj hl2).symm
    rw [hcontent] at hc2
    obtain rfl : kvs2 = kvs := (PyVal.pdict.inj hc2).symm
    rw [hsum] at hs2
    obtain rfl : sk2 = sk := (PyVal.pdict.inj hs2).symm
    rw [hmiss, Option.getD_none] at hint
    simp only [pyToInt, Except.ok.injEq] at hint
    norm_num [ratTrunc] at hint
  · intro th s hgate hth
    obtain ⟨art, kvs, sk, hlatest, hcontent, hsum, ⟨r, hfl, hle⟩, _⟩ :=
      qa_gate_true_char th s hgate
    cases hv : sk.get "test_pass_rate" with
    | none =>
      rw [hv] at hfl
      simp only [Option.getD_none, pyFloat, Except.ok.injEq] at hfl
      rw [← hfl] at hle
      exact absurd hle (by exact not_le.mpr hth)
    | some v =>
      rw [hv, Option.getD_some] at hfl
      exact ⟨art, kvs, sk, v, r, hlatest, hcontent, hsum, hv, hfl, hle⟩
  · intro th s hgate
    obtain ⟨art, kvs, sk, hlatest, hcontent, hsum, _, hint⟩ := qa_gate_true_char th s hgate
    cases hv : sk.get "critical_bugs" with
    | none =>
      rw [hv, Option.getD_none] at hint
      simp only [pyToInt, Except.ok.injEq] at hint
      norm_num [ratTrunc] at hint
    | some v =>
      rw [hv, Option.getD_some] at hint
      exact ⟨art, kvs, sk, v, hlatest, hcontent, hsum, hv, hint⟩

def qaSummaryNoRate : PyDict := .cons "critical_bugs" (.pnum 0) .nil

def qaArtNoRate : Artifact :=
  { artifact_id := "q1", artifact_type := "qa_report", producer := "qa",
    content := .pdict (.cons "summary" (.pdict qaSummaryNoRate) .nil), version := 1 }

def stateNoRate : ProjectState :=
  { artifact_store := fun k => if k = "qa_report" then [qaArtNoRate] else [] }

/-- C10 counterexample: with `qa_pass_threshold = 0` (allowed by the
topology's validation, which only requires a non-negative threshold) the
gate passes on a summary that omits `test_pass_rate` entirely — so the gate
does not pass "only when an explicit pass rate meets the threshold". -/
theorem qa_gate_passes_without_explicit_rate :
    qa_gate_passed 0 stateNoRate = .ok true ∧
    qaSummaryNoRate.get "test_pass_rate" = none := by
  constructor
  · rfl
  · rfl

def qaSummaryFull : PyDict :=
  .cons "test_pass_rate" (.pnum (9 / 10)) (.cons "critical_bugs" (.pnum 0) .nil)

def qaArtFull : Artifact :=
  { artifact_id := "q2", artifact_type := "qa_report", producer := "qa",
    content := .pdict (.cons "summary" (.pdict qaSummaryFull) .nil), version := 1 }

def stateFullReport : ProjectState :=
  { artifact_store := fun k => if k = "qa_report" then [qaArtFull] else [] }

theorem stateFullReport_gate_true : qa_gate_passed (85 / 100) stateFullReport = .ok true := by
  have h1 : stateFullReport.get_latest_artifact "qa_report" = some qaArtFull := rfl
  have h2 : qaArtFull.content = .pdict (.cons "summary" (.pdict qaSummaryFull) .nil) := rfl
  have h3 : (PyDict.cons "summary" (.pdict qaSummaryFull) .nil).get "summary" =
      some (.pdict qaSummaryFull) := rfl
  have h4 : qaSummaryFull.get "test_pass_rate" = some (.pnum (9 / 10)) := rfl
  have h5 : qaSummaryFull.get "critical_bugs" = some (.pnum 0) := rfl
  simp only [qa_gate_passed, h1, h2, h3, h4, h5, Option.getD_some, pyFloat, pyToInt]
  norm_num [ratTrunc]

theorem qa_gate_fails_closed_witness :
    qa_gate_passed (85 / 100) ({} : ProjectState) = .ok false ∧
    (∃ art kvs sk v r,
      stateFullReport.get_latest_artifact "qa_report" = some art ∧
      art.content = .pdict kvs ∧ (kvs.get "summary").getD (.pdict .nil) = .pdict sk ∧
      sk.get "test_pass_rate" = some v ∧ pyFloat v = .ok r ∧ (85 / 100 : Rat) ≤ r) ∧
    (∃ art kvs sk v,
      stateFullReport.get_latest_artifact "qa_report" = some art ∧
      art.content = .pdict kvs ∧ (kvs.get "summary").getD (.pdict .nil) = .pdict sk ∧
      sk.get "critical_bugs" = some v ∧ pyToInt v = .ok 0) :=
  ⟨qa_gate_fails_closed.1 (85 / 100) {} rfl,
   qa_gate_fails_closed.2.2.2.2.2.1 (85 / 100) stateFullReport stateFullReport_gate_true (by norm_num),
   qa_gate_fails_closed.2.2.2.2.2.2.1 (85 / 100) stateFullReport stateFullReport_gate_true⟩

/-! ## Theorems: peer-review topology (C5, C6, part of C3) -/

/-- The `TurnResult` of a turn whose executor only registers one artifact
under `key`. -/
def simpleProducerTurn (role key : String) (orch : Orchestrator) : TurnResult :=
  { agent_role := role, success := true,
    artifacts_registered :=
      [key ++ ":v" ++ toString ((orch.state.artifact_store key).length + 1)],
    messages_emitted := 0, usage_tokens := 0, usage_api_calls := 0,
    updated_fields := [], stop := false, error := none }

theorem run_turn_simple_producer (role key : String) (P : Agent) (a : Artifact)
    (hkey : key.isEmpty = false)
    (orch : Orchestrator) (hreg : orch.agents role = some P)
    (hact : P.act orch.state = .ok { artifacts := [ArtifactEntry.keyed (some key) a] }) :
    run_turn orch role = .ok
      ({ orch with
          state := (orch.state.register_artifact key
            (if a.producer = "" then { a with producer := role } else a)).1,
          turn_history := orch.turn_history ++ [simpleProducerTurn role key orch] },
        simpleProducerTurn role key orch) := by
  simp only [run_turn, hreg, hact]
  simp only [ne_eq, not_true_eq_false, or_self, if_false, ite_false]
  simp only [apply_state_updates, applyUpdatesCore, ite_true, if_true]
  simp only [register_artifacts, ArtifactEntry.storeKey, ArtifactEntry.artifact, hkey,
    Bool.false_eq_true, if_false, ite_false, routeAll, simpleProducerTurn]
  simp [ProjectState.register_artifact, ArtifactStore.register]

theorem get_latest_after_register (s : ProjectState) (key : String) (a : Artifact) :
    (s.register_artifact key a).1.get_latest_artifact key =
      some { a with version := (s.artifact_store key).length + 1 } := by
  simp [ProjectState.register_artifact, ProjectState.get_latest_artifact,
    ProjectState.touch, ArtifactStore.get_latest, ArtifactStore.register]

theorem run_role_simple_producer (cfg : BaseCfg) (role key : String) (P : Agent)
    (a : Artifact) (hkey : key.isEmpty = false)
    (orch : Orchestrator) (hreg : orch.agents role = some P)
    (hact : P.act orch.state = .ok { artifacts := [ArtifactEntry.keyed (some key) a] }) :
    run_role cfg orch role = .ok
      ({ orch with
          state := (orch.state.register_artifact key
            (if a.producer = "" then { a with producer := role } else a)).1,
          turn_history := orch.turn_history ++ [simpleProducerTurn role key orch] },
        [simpleProducerTurn role key orch], simpleProducerTurn role key orch) := by
  unfold run_role
  cases hfuel : cfg.max_retries_per_role with
  | zero =>
    rw [run_role_fuel]
    simp only [run_turn_simple_producer role key P a hkey orch hreg hact]
    simp only [simpleProducerTurn, Bool.true_or, eq_self_iff_true, if_true, ite_true]
  | succ f =>
    rw [run_role_fuel]
    simp only [run_turn_simple_producer role key P a hkey orch hreg hact]
    simp only [simpleProducerTurn, Bool.true_or, eq_self_iff_true, if_true, ite_true]

/-- The orchestrator after one producer turn plus the rejecting review
message, inside `_run_developer_with_review`. -/
def afterReviewOrch (cfg : PeerReviewCfg) (producer_role key : String)
    (f : ProjectState -> Artifact) (orch : Orchestrator) (round : Nat) : Orchestrator :=
  (({ orch with
      state := (orch.state.register_artifact key
        (if (f orch.state).producer = "" then { f orch.state with producer := producer_role }
         else f orch.state)).1,
      turn_history := orch.turn_history ++ [simpleProducerTurn producer_role key orch] } :
        Orchestrator).route_message
    (reviewMessage cfg producer_role key ReviewStatus.REVISION_NEEDED round))

/-- `afterReviewOrch` plus the loop-back iteration increment. -/
def nextOrch (cfg : PeerReviewCfg) (producer_role key : String)
    (f : ProjectState -> Artifact) (orch : Orchestrator) (round : Nat) : Orchestrator :=
  { afterReviewOrch cfg producer_role key f orch round with
    state := (afterReviewOrch cfg producer_role key f orch round).state.increment_iteration }

theorem devLoop_reject_zero_eq (cfg : PeerReviewCfg) (producer_role key : String)
    (reviewer P : Agent) (f : ProjectState -> Artifact)
    (hkey : key.isEmpty = false)
    (hact : ∀ s, P.act s = .ok { artifacts := [ArtifactEntry.keyed (some key) (f s)] })
    (hrev : ∀ a, (reviewer.review a).status = ReviewStatus.REVISION_NEEDED)
    (round : Nat) (orch : Orchestrator) (hreg : orch.agents producer_role = some P) :
    devLoop cfg reviewer producer_role key 0 round orch =
      .ok (afterReviewOrch cfg producer_role key f orch round,
        [simpleProducerTurn producer_role key orch,
         mkReviewTurn cfg ReviewStatus.REVISION_NEEDED false none,
         mkReviewTurn cfg ReviewStatus.REVISION_NEEDED cfg.base.fail_fast
           (some ("revision budget exhausted for " ++ producer_role ++
             ": max_revisions=" ++ toString cfg.max_revisions_per_target))],
        !cfg.base.fail_fast) := by
  rw [devLoop]
  simp only [run_role_simple_producer cfg.base producer_role key P (f orch.state) hkey
    orch hreg (hact orch.state)]
  simp only [BaseCfg.should_stop, simpleProducerTurn, Bool.not_true, Bool.false_and,
    Bool.or_false, Bool.and_false, Bool.false_eq_true, if_false, ite_false,
    Bool.false_or]
  simp only [get_latest_after_register, hrev, mkReviewTurn]
  simp only [reduceCtorEq, if_false, ite_false]
  rfl

theorem devLoop_reject_succ_eq (cfg : PeerReviewCfg) (producer_role key : String)
    (reviewer P : Agent) (f : ProjectState -> Artifact)
    (hkey : key.isEmpty = false)
    (hact : ∀ s, P.act s = .ok { artifacts := [ArtifactEntry.keyed (some key) (f s)] })
    (hrev : ∀ a, (reviewer.review a).status = ReviewStatus.REVISION_NEEDED)
    (R round : Nat) (orch : Orchestrator) (hreg : orch.agents producer_role = some P) :
    devLoop cfg reviewer producer_role key (R + 1) round orch =
      (match devLoop cfg reviewer producer_role key R (round + 1)
          (nextOrch cfg producer_role key f orch round) with
        | .error e => .error e
        | .ok (orch4, rest, cont) =>
          .ok (orch4, simpleProducerTurn producer_role key orch ::
            mkReviewTurn cfg ReviewStatus.REVISION_NEEDED false none :: rest, cont)) := by
  rw [devLoop]
  simp only [run_role_simple_producer cfg.base producer_role key P (f orch.state) hkey
    orch hreg (hact orch.state)]
  simp only [BaseCfg.should_stop, simpleProducerTurn, Bool.not_true, Bool.false_and,
    Bool.or_false, Bool.and_false, Bool.false_eq_true, if_false, ite_false,
    Bool.false_or]
  simp only [get_latest_after_register, hrev, mkReviewTurn]
  simp only [reduceCtorEq, if_false, ite_false]
  simp only [nextOrch, afterReviewOrch, simpleProducerTurn, mkReviewTurn]
  split <;> rfl

theorem afterReviewOrch_frame (cfg : PeerReviewCfg) (producer_role key : String)
    (f : ProjectState -> Artifact) (orch : Orchestrator) (round : Nat) :
    (afterReviewOrch cfg producer_role key f orch round).agents = orch.agents ∧
    (afterReviewOrch cfg producer_role key f orch round).state.iteration =
      orch.state.iteration := by
  constructor
  · simp [afterReviewOrch, Orchestrator.route_message]
  · simp [afterReviewOrch, Orchestrator.route_message, ProjectState.add_message,
      ProjectState.touch, ProjectState.register_artifact]

theorem nextOrch_frame (cfg : PeerReviewCfg) (producer_role key : String)
    (f : ProjectState -> Artifact) (orch : Orchestrator) (round : Nat) :
    (nextOrch cfg producer_role key f orch round).agents = orch.agents ∧
    (nextOrch cfg producer_role key f orch round).state.iteration =
      orch.state.iteration + 1 := by
  obtain ⟨h1, h2⟩ := afterReviewOrch_frame cfg producer_role key f orch round
  constructor
  · simpa [nextOrch] using h1
  · simp [nextOrch, ProjectState.increment_iteration, ProjectState.touch, h2]

/-- The bounded revision loop with an always-rejecting reviewer and a
producer that always succeeds, registering one artifact under the review
target key: the producer runs once per round, the loop runs `budget + 1`
rounds, increments the iteration counter once per loop-back, and ends in a
budget-exhaustion turn returning `!fail_fast`. -/
theorem devLoop_always_reject (cfg : PeerReviewCfg) (producer_role key : String)
    (reviewer P : Agent) (f : ProjectState -> Artifact)
    (hne : cfg.reviewer_role ≠ producer_role)
    (hkey : key.isEmpty = false)
    (hact : ∀ s, P.act s = .ok { artifacts := [ArtifactEntry.keyed (some key) (f s)] })
    (hrev : ∀ a, (reviewer.review a).status = ReviewStatus.REVISION_NEEDED) :
    ∀ (R round : Nat) (orch : Orchestrator), orch.agents producer_role = some P →
      ∃ orchF results,
        devLoop cfg reviewer producer_role key R round orch =
          .ok (orchF, results, !cfg.base.fail_fast) ∧
        results.countP (fun r => decide (r.agent_role = producer_role)) = R + 1 ∧
        orchF.state.iteration = orch.state.iteration + R ∧
        orchF.agents = orch.agents := by
  intro R
  induction R with
  | zero =>
    intro round orch hreg
    refine ⟨afterReviewOrch cfg producer_role key f orch round,
      [simpleProducerTurn producer_role key orch,
       mkReviewTurn cfg ReviewStatus.REVISION_NEEDED false none,
       mkReviewTurn cfg ReviewStatus.REVISION_NEEDED cfg.base.fail_fast
         (some ("revision budget exhausted for " ++ producer_role ++
           ": max_revisions=" ++ toString cfg.max_revisions_per_target))],
      devLoop_reject_zero_eq cfg producer_role key reviewer P f hkey hact hrev round orch hreg,
      ?_, ?_, ?_⟩
    · simp [List.countP_cons, List.countP_nil, simpleProducerTurn, mkReviewTurn, hne,
        Ne.symm hne]
    · simpa using (afterReviewOrch_frame cfg producer_role key f orch round).2
    · exact (afterReviewOrch_frame cfg producer_role key f orch round).1
  | succ R ih =>
    intro round orch hreg
    obtain ⟨hagents, hiter⟩ := nextOrch_frame cfg producer_role key f orch round
    obtain ⟨orchF, rest, hdl, hcount, hiterF, hagentsF⟩ :=
      ih (round + 1) (nextOrch cfg producer_role key f orch round) (hagents ▸ hreg)
    refine ⟨orchF,
      simpleProducerTurn producer_role key orch ::
        mkReviewTurn cfg ReviewStatus.REVISION_NEEDED false none :: rest,
      ?_, ?_, ?_, ?_⟩
    · rw [devLoop_reject_succ_eq cfg producer_role key reviewer P f hkey hact hrev R round
        orch hreg, hdl]
    · simp only [List.countP_cons, hcount, simpleProducerTurn, mkReviewTurn]
      simp [hne, Ne.symm hne]
    · rw [hiterF, hiter]
      omega
    · rw [hagentsF, hagents]

/-- C5: in the peer-review topology with `max_revisions_per_target = R`, a
producer whose turns always succeed (registering the review-target artifact)
and a reviewer that always returns REVISION_NEEDED, the revision loop of
`_run_developer_with_review` invokes the producer's executor exactly `R + 1`
times before aborting, and the global iteration counter is incremented
exactly once per revision loop-back — `R` times in total. -/
theorem peer_review_revision_bound (cfg : PeerReviewCfg) (producer_role key : String)
    (reviewer P : Agent) (f : ProjectState -> Artifact)
    (hne : cfg.reviewer_role ≠ producer_role)
    (hkey : key.isEmpty = false)
    (hact : ∀ s, P.act s = .ok { artifacts := [ArtifactEntry.keyed (some key) (f s)] })
    (hrev : ∀ a, (reviewer.review a).status = ReviewStatus.REVISION_NEEDED)
    (orch : Orchestrator)
    (hrevreg : orch.agents cfg.reviewer_role = some reviewer)
    (hreg : orch.agents producer_role = some P) :
    ∃ orchF results,
      run_developer_with_review cfg orch producer_role key =
        .ok (orchF, results, !cfg.base.fail_fast) ∧
      results.countP (fun r => decide (r.agent_role = producer_role)) =
        cfg.max_revisions_per_target + 1 ∧
      orchF.state.iteration = orch.state.iteration + cfg.max_revisions_per_target := by
  obtain ⟨orchF, results, h1, h2, h3, _⟩ :=
    devLoop_always_reject cfg producer_role key reviewer P f hne hkey hact hrev
      cfg.max_revisions_per_target 0 orch hreg
  refine ⟨orchF, results, ?_, h2, h3⟩
  simp only [run_developer_with_review, hrevreg]
  exact h1

def rejectingReviewer : Agent :=
  { act := fun _ => .ok {},
    review := fun _ =>
      { status := .REVISION_NEEDED,
        comments := ["Initial submission needs revision for production-readiness checks."],
        reviewer := "reviewer" } }

def constArt : ProjectState -> Artifact := fun _ => artTemplate

def alwaysProducer : Agent :=
  { act := fun s => .ok { artifacts := [ArtifactEntry.keyed (some "backend_code") (constArt s)] },
    review := fun _ => { status := .APPROVED, comments := [], reviewer := "" } }

def orchPeer : Orchestrator :=
  { state := {},
    agents := fun r =>
      if r = "backend_dev" then some alwaysProducer
      else if r = "reviewer" then some rejectingReviewer
      else none }

def cfgPeerDefault : PeerReviewCfg := {}

theorem peer_review_revision_bound_witness :
    ∃ orchF results,
      run_developer_with_review cfgPeerDefault orchPeer "backend_dev" "backend_code" =
        .ok (orchF, results, !cfgPeerDefault.base.fail_fast) ∧
      results.countP (fun r => decide (r.agent_role = "backend_dev")) =
        cfgPeerDefault.max_revisions_per_target + 1 ∧
      orchF.state.iteration = orchPeer.state.iteration + cfgPeerDefault.max_revisions_per_target :=
  peer_review_revision_bound cfgPeerDefault "backend_dev" "backend_code"
    rejectingReviewer alwaysProducer constArt (by decide) rfl (fun _ => rfl) (fun _ => rfl)
    orchPeer rfl rfl

/-- C6 (amended): in the peer-review topology, a successful producer turn
with no artifact under the review target key appends a REVISION_NEEDED
review turn and ends the loop exactly as budget exhaustion does — the turn
carries `stop = fail_fast` and a "missing artifact" error, the run aborts
iff `fail_fast`, and no revision budget is consumed and no loop-back to the
producer happens (the outcome is the same for every remaining budget `R`). -/
theorem peer_review_missing_artifact_behavior (cfg : PeerReviewCfg) (reviewer : Agent)
    (producer_role key : String) (R round : Nat) (orch orch1 : Orchestrator)
    (attempts : List TurnResult) (last : TurnResult)
    (hrun : run_role cfg.base orch producer_role = .ok (orch1, attempts, last))
    (hstop : cfg.base.should_stop last = false)
    (hmiss : orch1.state.get_latest_artifact key = none) :
    devLoop cfg reviewer producer_role key R round orch =
      .ok (orch1, attempts ++
        [{ agent_role := cfg.reviewer_role, success := false,
           stop := cfg.base.fail_fast,
           error := some ("missing artifact for key=" ++ key) }],
        !cfg.base.fail_fast) := by
  rw [devLoop]
  simp only [hrun, hstop, Bool.false_eq_true, if_false, ite_false, hmiss]
  rfl

def cfgNoFailFast : PeerReviewCfg := { base := { fail_fast := false } }

def noArtProducer : Agent :=
  { act := fun _ => .ok {},
    review := fun _ => { status := .APPROVED, comments := [], reviewer := "" } }

def orchNoArt : Orchestrator :=
  { state := {},
    agents := fun r =>
      if r = "backend_dev" then some noArtProducer
      else if r = "reviewer" then some rejectingReviewer
      else none }

def noArtTurn : TurnResult := { agent_role := "backend_dev", success := true }

theorem peer_review_missing_artifact_behavior_witness :
    devLoop cfgNoFailFast rejectingReviewer "backend_dev" "backend_code" 1 0 orchNoArt =
      .ok ({ orchNoArt with turn_history := orchNoArt.turn_history ++ [noArtTurn] },
        [noArtTurn] ++
          [{ agent_role := cfgNoFailFast.reviewer_role, success := false,
             stop := cfgNoFailFast.base.fail_fast,
             error := some ("missing artifact for key=" ++ "backend_code") }],
        !cfgNoFailFast.base.fail_fast) :=
  peer_review_missing_artifact_behavior cfgNoFailFast rejectingReviewer
    "backend_dev" "backend_code" 1 0 orchNoArt
    ({ orchNoArt with turn_history := orchNoArt.turn_history ++ [noArtTurn] })
    [noArtTurn] noArtTurn rfl rfl rfl

/-- C6 counterexample: with `max_revisions_per_target = 1` (budget remains)
and `fail_fast = false`, a producer registering no artifact yields a single
producer invocation and an immediate loop exit, while an ordinary
REVISION_NEEDED verdict with the same budget loops back for a second
producer invocation — the two cases are not treated identically with
respect to the revision budget. -/
theorem peer_review_missing_artifact_counterexample :
    Except.map (fun t => (t.2.1.countP (fun r => decide (r.agent_role = "backend_dev")), t.2.2))
      (run_developer_with_review cfgNoFailFast orchNoArt "backend_dev" "backend_code") =
      .ok (1, true) ∧
    Except.map (fun t => (t.2.1.countP (fun r => decide (r.agent_role = "backend_dev")), t.2.2))
      (run_developer_with_review cfgNoFailFast orchPeer "backend_dev" "backend_code") =
      .ok (2, true) :=
  ⟨rfl, rfl⟩

/-- Budget-exhaustion round of the peer-review revision loop: the terminal
review turn carries the descriptive error and `stop = fail_fast`. -/
theorem devLoop_budget_exhaustion (cfg : PeerReviewCfg) (reviewer : Agent)
    (producer_role key : String) (round : Nat) (orch orch1 : Orchestrator)
    (attempts : List TurnResult) (last : TurnResult) (artifact : Artifact)
    (hrun : run_role cfg.base orch producer_role = .ok (orch1, attempts, last))
    (hstop : cfg.base.should_stop last = false)
    (hart : orch1.state.get_latest_artifact key = some artifact)
    (hrev : (reviewer.review artifact).status = ReviewStatus.REVISION_NEEDED) :
    devLoop cfg reviewer producer_role key 0 round orch =
      .ok (orch1.route_message
          (reviewMessage cfg producer_role key ReviewStatus.REVISION_NEEDED round),
        attempts ++
          [{ agent_role := cfg.reviewer_role, success := false, stop := false,
             error := none },
           { agent_role := cfg.reviewer_role, success := false,
             stop := cfg.base.fail_fast,
             error := some ("revision budget exhausted for " ++ producer_role ++
               ": max_revisions=" ++ toString cfg.max_revisions_per_target) }],
        !cfg.base.fail_fast) := by
  rw [devLoop]
  simp only [hrun, hstop, Bool.false_eq_true, if_false, ite_false, hart, hrev]
  simp only [reduceCtorEq, if_false, ite_false]
  rfl

/-! ## Theorems: iterative-feedback topology (C4, part of C3) -/

/-- Anti-loop trigger: a QA round that fails the gate with the same
signature and unchanged backend/frontend versions as the recorded previous
failed round pushes the stagnant counter past `max_stagnant_rounds` and
aborts with the anti-loop control turn, with no feedback routed. -/
theorem iterLoop_antiloop (cfg : IterCfg) (rem fIter stag : Nat)
    (orch orch1 : Orchestrator) (qa_attempts : List TurnResult) (qa_result : TurnResult)
    (sigv : QASig)
    (hskip : cfg.base.should_skip cfg.qa_role = false)
    (hrun : run_role cfg.base orch cfg.qa_role = .ok (orch1, qa_attempts, qa_result))
    (hstop : cfg.base.should_stop qa_result = false)
    (hgate : qa_gate_passed cfg.qa_pass_threshold orch1.state = .ok false)
    (hsig : qa_signature orch1.state = .ok sigv)
    (htrig : cfg.max_stagnant_rounds < stag + 1) :
    iterLoop cfg rem fIter stag (some sigv.render)
        (some (latest_version orch1.state "backend_code",
               latest_version orch1.state "frontend_code")) orch =
      .ok (orch1, qa_attempts ++ [controlTurn cfg.qa_role
        ("anti-loop triggered: repeated QA failure signature with unchanged code versions for "
          ++ toString (stag + 1) ++ " rounds")]) := by
  rw [iterLoop]
  simp only [hskip, Bool.false_eq_true, if_false, ite_false, hrun, hstop, hgate, hsig]
  simp only [eq_self_iff_true, and_self, if_true, ite_true]
  rw [if_pos htrig]

/-- Iteration-cap trigger on a first failed QA round (no previous failed
signature recorded) with the feedback budget already spent. -/
theorem iterLoop_cap (cfg : IterCfg) (fIter stag : Nat)
    (orch orch1 : Orchestrator) (qa_attempts : List TurnResult) (qa_result : TurnResult)
    (sigv : QASig)
    (hskip : cfg.base.should_skip cfg.qa_role = false)
    (hrun : run_role cfg.base orch cfg.qa_role = .ok (orch1, qa_attempts, qa_result))
    (hstop : cfg.base.should_stop qa_result = false)
    (hgate : qa_gate_passed cfg.qa_pass_threshold orch1.state = .ok false)
    (hsig : qa_signature orch1.state = .ok sigv) :
    iterLoop cfg 0 fIter stag none none orch =
      .ok (orch1, qa_attempts ++ [controlTurn cfg.qa_role
        ("feedback iteration cap reached: max_feedback_iterations="
          ++ toString cfg.max_feedback_iterations)]) := by
  rw [iterLoop]
  simp only [hskip, Bool.false_eq_true, if_false, ite_false, hrun, hstop, hgate, hsig]
  rw [if_neg (by simp)]

/-- C4 (on `IterativeFeedbackTopology.run`'s QA loop): with
`max_stagnant_rounds = 0`, when a QA round fails the gate with a failure
signature and backend/frontend versions identical to the recorded previous
failed round, the loop aborts at that second occurrence with an "anti-loop
triggered" terminal turn (`stop = true`, `success = false`), and no further
feedback is routed: the returned orchestrator is exactly the post-QA one. -/
theorem iterative_antiloop_second_occurrence (cfg : IterCfg) (rem fIter stag : Nat)
    (orch orch1 : Orchestrator) (qa_attempts : List TurnResult) (qa_result : TurnResult)
    (sigv : QASig)
    (hmax : cfg.max_stagnant_rounds = 0)
    (hskip : cfg.base.should_skip cfg.qa_role = false)
    (hrun : run_role cfg.base orch cfg.qa_role = .ok (orch1, qa_attempts, qa_result))
    (hstop : cfg.base.should_stop qa_result = false)
    (hgate : qa_gate_passed cfg.qa_pass_threshold orch1.state = .ok false)
    (hsig : qa_signature orch1.state = .ok sigv) :
    iterLoop cfg rem fIter stag (some sigv.render)
        (some (latest_version orch1.state "backend_code",
               latest_version orch1.state "frontend_code")) orch =
      .ok (orch1, qa_attempts ++ [controlTurn cfg.qa_role
        ("anti-loop triggered: repeated QA failure signature with unchanged code versions for "
          ++ toString (stag + 1) ++ " rounds")]) ∧
    (controlTurn cfg.qa_role
        ("anti-loop triggered: repeated QA failure signature with unchanged code versions for "
          ++ toString (stag + 1) ++ " rounds")).stop = true ∧
    (controlTurn cfg.qa_role
        ("anti-loop triggered: repeated QA failure signature with unchanged code versions for "
          ++ toString (stag + 1) ++ " rounds")).success = false := by
  refine ⟨?_, rfl, rfl⟩
  exact iterLoop_antiloop cfg rem fIter stag orch orch1 qa_attempts qa_result sigv
    hskip hrun hstop hgate hsig (by omega)

def qaNoneArt : ProjectState -> Artifact := fun _ =>
  { artifact_id := "q", artifact_type := "qa_report", producer := "qa",
    content := .pnone, version := 0 }

def qaFailAgent : Agent :=
  { act := fun s => .ok { artifacts := [ArtifactEntry.keyed (some "qa_report") (qaNoneArt s)] },
    review := fun _ => { status := .APPROVED, comments := [], reviewer := "" } }

def cfgIterAnti : IterCfg := { max_stagnant_rounds := 0 }

def orchIter : Orchestrator :=
  { state := {}, agents := fun r => if r = "qa" then some qaFailAgent else none }

def orchIterAfterQA : Orchestrator :=
  { orchIter with
    state := (orchIter.state.register_artifact "qa_report"
      (if (qaNoneArt orchIter.state).producer = ""
       then { qaNoneArt orchIter.state with producer := "qa" }
       else qaNoneArt orchIter.state)).1,
    turn_history := orchIter.turn_history ++ [simpleProducerTurn "qa" "qa_report" orchIter] }

theorem iterative_antiloop_second_occurrence_witness :
    iterLoop cfgIterAnti 2 0 0 (some QASig.qnone.render)
        (some (latest_version orchIterAfterQA.state "backend_code",
               latest_version orchIterAfterQA.state "frontend_code")) orchIter =
      .ok (orchIterAfterQA, [simpleProducerTurn "qa" "qa_report" orchIter] ++
        [controlTurn cfgIterAnti.qa_role
          ("anti-loop triggered: repeated QA failure signature with unchanged code versions for "
            ++ toString (0 + 1) ++ " rounds")]) ∧
    (controlTurn cfgIterAnti.qa_role
        ("anti-loop triggered: repeated QA failure signature with unchanged code versions for "
          ++ toString (0 + 1) ++ " rounds")).stop = true ∧
    (controlTurn cfgIterAnti.qa_role
        ("anti-loop triggered: repeated QA failure signature with unchanged code versions for "
          ++ toString (0 + 1) ++ " rounds")).success = false :=
  iterative_antiloop_second_occurrence cfgIterAnti 2 0 0 orchIter orchIterAfterQA
    [simpleProducerTurn "qa" "qa_report" orchIter] (simpleProducerTurn "qa" "qa_report" orchIter)
    QASig.qnone rfl rfl
    (run_role_simple_producer cfgIterAnti.base "qa" "qa_report" qaFailAgent
      (qaNoneArt orchIter.state) rfl orchIter rfl rfl)
    rfl rfl rfl

/-! ## Coordinator retry-budget exhaustion (part of C3) -/

/-- The coordinator as a task executor at a fixed private retry counter
(the counter only matters within a single turn here). -/
def coordinatorAgent (cfgC : CoordinatorCfg) (count : Nat) : Agent :=
  { act := fun s => Except.map (fun p => p.1) (coordinator_act cfgC count s),
    review := fun _ => { status := .APPROVED, comments := [], reviewer := "" } }

def coordinatorStopMsg (cfgC : CoordinatorCfg) : AgentMessage :=
  { sender := cfgC.role, receiver := "orchestrator",
    content := "Coordinator stop: " ++ "qa gate failed after retry budget",
    msg_type := .STATUS }

theorem coordinator_retry_budget_stop (cfgC : CoordinatorCfg) (count : Nat)
    (s : ProjectState)
    (hcount : ¬ count < cfgC.max_qa_retries)
    (h1 : ¬ s.requirements = PyVal.pnone) (h2 : ¬ s.architecture = PyVal.pnone)
    (h3 : ¬ s.backend_code = PyVal.pnone) (h4 : ¬ s.frontend_code = PyVal.pnone)
    (h5 : ¬ s.qa_report = PyVal.pnone) (h6 : s.deployment = PyVal.pnone)
    (hgate : coordinator_qa_gate s = .ok false)
    (hver : ¬ latest_version s "qa_report" <
      max (latest_version s "backend_code") (latest_version s "frontend_code")) :
    coordinator_act cfgC count s = .ok
      ({ messages := [coordinatorStopMsg cfgC],
         usage_tokens := 180, usage_api_calls := 1, stop := true }, count) := by
  rw [coordinator_act, coordinator_decide]
  rw [if_neg h1, if_neg h2, if_neg h3, if_neg h4, if_neg h5]
  rw [if_neg (by simp [h6])]
  simp only [hgate]
  rw [if_neg hver, if_neg hcount]
  rfl

theorem coordinator_stop_turn (cfgC : CoordinatorCfg) (count : Nat) (role : String)
    (orch : Orchestrator)
    (horch : orch.agents role = some (coordinatorAgent cfgC count))
    (hcount : ¬ count < cfgC.max_qa_retries)
    (h1 : ¬ orch.state.requirements = PyVal.pnone)
    (h2 : ¬ orch.state.architecture = PyVal.pnone)
    (h3 : ¬ orch.state.backend_code = PyVal.pnone)
    (h4 : ¬ orch.state.frontend_code = PyVal.pnone)
    (h5 : ¬ orch.state.qa_report = PyVal.pnone)
    (h6 : orch.state.deployment = PyVal.pnone)
    (hgate : coordinator_qa_gate orch.state = .ok false)
    (hver : ¬ latest_version orch.state "qa_report" <
      max (latest_version orch.state "backend_code")
        (latest_version orch.state "frontend_code")) :
    ∃ (orchN : Orchestrator) (res : TurnResult),
      run_turn orch role = .ok (orchN, res) ∧
      res.stop = true ∧ res.success = true ∧ res.error = none := by
  have hact : (coordinatorAgent cfgC count).act orch.state = .ok
      { messages := [coordinatorStopMsg cfgC],
        usage_tokens := 180, usage_api_calls := 1, stop := true } := by
    simp only [coordinatorAgent,
      coordinator_retry_budget_stop cfgC count orch.state hcount h1 h2 h3 h4 h5 h6 hgate hver]
    rfl
  simp only [run_turn, horch, hact]
  refine ⟨_, _, rfl, rfl, rfl, rfl⟩

/-- C3 (amended): exhausting a budget or cap never raises — each mechanism
produces a terminal `TurnResult`, but its shape differs: the
iterative-feedback stagnant-round and iteration caps append a turn with
`stop = true` and a descriptive error string regardless of `fail_fast`; the
peer-review revision budget appends a turn with a descriptive error string
whose `stop` flag equals `fail_fast` (the run aborts only when `fail_fast`
is set); and the coordinator's QA retry exhaustion ends its turn with a
successful `stop = true` `TurnResult` whose `error` field is `none` — its
explanation travels in its STATUS message instead. -/
theorem budget_exhaustion_terminal_behavior :
    (∀ (cfg : IterCfg) (rem fIter stag : Nat) (orch orch1 : Orchestrator)
        (qa_attempts : List TurnResult) (qa_result : TurnResult) (sigv : QASig),
      cfg.base.should_skip cfg.qa_role = false →
      run_role cfg.base orch cfg.qa_role = .ok (orch1, qa_attempts, qa_result) →
      cfg.base.should_stop qa_result = false →
      qa_gate_passed cfg.qa_pass_threshold orch1.state = .ok false →
      qa_signature orch1.state = .ok sigv →
      cfg.max_stagnant_rounds < stag + 1 →
      ∃ err, iterLoop cfg rem fIter stag (some sigv.render)
          (some (latest_version orch1.state "backend_code",
                 latest_version orch1.state "frontend_code")) orch =
          .ok (orch1, qa_attempts ++ [controlTurn cfg.qa_role err]) ∧
        (controlTurn cfg.qa_role err).stop = true ∧
        (controlTurn cfg.qa_role err).success = false ∧
        (controlTurn cfg.qa_role err).error = some err) ∧
    (∀ (cfg : IterCfg) (fIter stag : Nat) (orch orch1 : Orchestrator)
        (qa_attempts : List TurnResult) (qa_result : TurnResult) (sigv : QASig),
      cfg.base.should_skip cfg.qa_role = false →
      run_role cfg.base orch cfg.qa_role = .ok (orch1, qa_attempts, qa_result) →
      cfg.base.should_stop qa_result = false →
      qa_gate_passed cfg.qa_pass_threshold orch1.state = .ok false →
      qa_signature orch1.state = .ok sigv →
      ∃ err, iterLoop cfg 0 fIter stag none none orch =
          .ok (orch1, qa_attempts ++ [controlTurn cfg.qa_role err]) ∧
        (controlTurn cfg.qa_role err).stop = true ∧
        (controlTurn cfg.qa_role err).success = false ∧
        (controlTurn cfg.qa_role err).error = some err) ∧
    (∀ (cfg : PeerReviewCfg) (reviewer : Agent) (producer_role key : String)
        (round : Nat) (orch orch1 : Orchestrator) (attempts : List TurnResult)
        (last : TurnResult) (artifact : Artifact),
      run_role cfg.base orch producer_role = .ok (orch1, attempts, last) →
      cfg.base.should_stop last = false →
      orch1.state.get_latest_artifact key = some artifact →
      (reviewer.review artifact).status = ReviewStatus.REVISION_NEEDED →
      ∃ err, devLoop cfg reviewer producer_role key 0 round orch =
        .ok (orch1.route_message
            (reviewMessage cfg producer_role key ReviewStatus.REVISION_NEEDED round),
          attempts ++
            [{ agent_role := cfg.reviewer_role, success := false, stop := false,
               error := none },
             { agent_role := cfg.reviewer_role, success := false,
               stop := cfg.base.fail_fast, error := some err }],
          !cfg.base.fail_fast)) ∧
    (∀ (cfgC : CoordinatorCfg) (count : Nat) (role : String) (orch : Orchestrator),
      orch.agents role = some (coordinatorAgent cfgC count) →
      ¬ count < cfgC.max_qa_retries →
      ¬ orch.state.requirements = PyVal.pnone →
      ¬ orch.state.architecture = PyVal.pnone →
      ¬ orch.state.backend_code = PyVal.pnone →
      ¬ orch.state.frontend_code = PyVal.pnone →
      ¬ orch.state.qa_report = PyVal.pnone →
      orch.state.deployment = PyVal.pnone →
      coordinator_qa_gate orch.state = .ok false →
      ¬ latest_version orch.state "qa_report" <
        max (latest_version orch.state "backend_code")
          (latest_version orch.state "frontend_code") →
      ∃ (orchN : Orchestrator) (res : TurnResult),
        run_turn orch role = .ok (orchN, res) ∧
        res.stop = true ∧ res.success = true ∧ res.error = none) := by
  refine ⟨?_, ?_, ?_, ?_⟩
  · intro cfg rem fIter stag orch orch1 qa_attempts qa_result sigv hskip hrun hstop hgate
      hsig htrig
    exact ⟨_, iterLoop_antiloop cfg rem fIter stag orch orch1 qa_attempts qa_result sigv
      hskip hrun hstop hgate hsig htrig, rfl, rfl, rfl⟩
  · intro cfg fIter stag orch orch1 qa_attempts qa_result sigv hskip hrun hstop hgate hsig
    exact ⟨_, iterLoop_cap cfg fIter stag orch orch1 qa_attempts qa_result sigv
      hskip hrun hstop hgate hsig, rfl, rfl, rfl⟩
  · intro cfg reviewer producer_role key round orch orch1 attempts last artifact hrun
      hstop hart hrev
    exact ⟨_, devLoop_budget_exhaustion cfg reviewer producer_role key round orch orch1
      attempts last artifact hrun hstop hart hrev⟩
  · intro cfgC count role orch horch hcount h1 h2 h3 h4 h5 h6 hgate hver
    exact coordinator_stop_turn cfgC count role orch horch hcount h1 h2 h3 h4 h5 h6
      hgate hver

def cfgPeerNoFFZero : PeerReviewCfg :=
  { base := { fail_fast := false }, max_revisions_per_target := 0 }

/-- C3 counterexample: with `fail_fast = false`, peer-review revision-budget
exhaustion produces a terminal turn whose error is set but whose `stop` flag
is `false` — not the claimed `stop = true` regardless of configuration. -/
theorem budget_exhaustion_stop_flag_counterexample :
    Except.map (fun t => t.2.1.getLast?.map (fun r => (r.stop, r.error)))
      (run_developer_with_review cfgPeerNoFFZero orchPeer "backend_dev" "backend_code") =
      .ok (some (false,
        some "revision budget exhausted for backend_dev: max_revisions=0")) :=
  rfl

def cfgIterCap0 : IterCfg := { max_feedback_iterations := 0 }

def artV1 : Artifact :=
  { artifact_id := "a", artifact_type := "backend_code", producer := "backend_dev",
    content := .pnone, version := 1 }

def stateCoord : ProjectState :=
  { requirements := .pdict .nil, architecture := .pdict .nil, backend_code := .pdict .nil,
    frontend_code := .pdict .nil, qa_report := .pdict .nil }

def orchCoord : Orchestrator :=
  { state := stateCoord,
    agents := fun r =>
      if r = "coordinator" then some (coordinatorAgent {} 1) else none }

theorem budget_exhaustion_terminal_behavior_witness :
    (∃ err, iterLoop cfgIterAnti 2 0 0 (some QASig.qnone.render)
        (some (latest_version orchIterAfterQA.state "backend_code",
               latest_version orchIterAfterQA.state "frontend_code")) orchIter =
        .ok (orchIterAfterQA,
          [simpleProducerTurn "qa" "qa_report" orchIter] ++
            [controlTurn cfgIterAnti.qa_role err]) ∧
      (controlTurn cfgIterAnti.qa_role err).stop = true ∧
      (controlTurn cfgIterAnti.qa_role err).success = false ∧
      (controlTurn cfgIterAnti.qa_role err).error = some err) ∧
    (∃ err, iterLoop cfgIterCap0 0 0 0 none none orchIter =
        .ok (orchIterAfterQA,
          [simpleProducerTurn "qa" "qa_report" orchIter] ++
            [controlTurn cfgIterCap0.qa_role err]) ∧
      (controlTurn cfgIterCap0.qa_role err).stop = true ∧
      (controlTurn cfgIterCap0.qa_role err).success = false ∧
      (controlTurn cfgIterCap0.qa_role err).error = some err) ∧
    (∃ err, devLoop cfgPeerNoFFZero rejectingReviewer "backend_dev" "backend_code" 0 0
        orchPeer =
        .ok (({ orchPeer with
            state := (orchPeer.state.register_artifact "backend_code" artTemplate).1,
            turn_history := orchPeer.turn_history ++
              [simpleProducerTurn "backend_dev" "backend_code" orchPeer] } :
              Orchestrator).route_message
            (reviewMessage cfgPeerNoFFZero "backend_dev" "backend_code"
              ReviewStatus.REVISION_NEEDED 0),
          [simpleProducerTurn "backend_dev" "backend_code" orchPeer] ++
            [{ agent_role := cfgPeerNoFFZero.reviewer_role, success := false, stop := false,
               error := none },
             { agent_role := cfgPeerNoFFZero.reviewer_role, success := false,
               stop := cfgPeerNoFFZero.base.fail_fast, error := some err }],
          !cfgPeerNoFFZero.base.fail_fast)) ∧
    (∃ (orchN : Orchestrator) (res : TurnResult),
      run_turn orchCoord "coordinator" = .ok (orchN, res) ∧
      res.stop = true ∧ res.success = true ∧ res.error = none) := by
  obtain ⟨p1, p2, p3, p4⟩ := budget_exhaustion_terminal_behavior
  refine ⟨?_, ?_, ?_, ?_⟩
  · exact p1 cfgIterAnti 2 0 0 orchIter orchIterAfterQA
      [simpleProducerTurn "qa" "qa_report" orchIter]
      (simpleProducerTurn "qa" "qa_report" orchIter) QASig.qnone rfl
      (run_role_simple_producer cfgIterAnti.base "qa" "qa_report" qaFailAgent
        (qaNoneArt orchIter.state) rfl orchIter rfl rfl)
      rfl rfl rfl (by decide)
  · exact p2 cfgIterCap0 0 0 orchIter orchIterAfterQA
      [simpleProducerTurn "qa" "qa_report" orchIter]
      (simpleProducerTurn "qa" "qa_report" orchIter) QASig.qnone rfl
      (run_role_simple_producer cfgIterCap0.base "qa" "qa_report" qaFailAgent
        (qaNoneArt orchIter.state) rfl orchIter rfl rfl)
      rfl rfl rfl
  · exact p3 cfgPeerNoFFZero rejectingReviewer "backend_dev" "backend_code" 0 orchPeer
      ({ orchPeer with
          state := (orchPeer.state.register_artifact "backend_code" artTemplate).1,
          turn_history := orchPeer.turn_history ++
            [simpleProducerTurn "backend_dev" "backend_code" orchPeer] })
      [simpleProducerTurn "backend_dev" "backend_code" orchPeer]
      (simpleProducerTurn "backend_dev" "backend_code" orchPeer) artV1
      (run_role_simple_producer cfgPeerNoFFZero.base "backend_dev" "backend_code"
        alwaysProducer (constArt orchPeer.state) rfl orchPeer rfl rfl)
      rfl rfl rfl
  · exact p4 {} 1 "coordinator" orchCoord rfl (by decide) (by decide) (by decide)
      (by decide) (by decide) (by decide) rfl rfl (by decide)

/-! ## Theorems: hub-and-spoke topology (C7) -/

theorem latest_route_spec (cfg : HubCfg) (s : ProjectState) (pre post : List AgentMessage)
    (m : AgentMessage)
    (hlog : s.message_log = pre ++ m :: post)
    (hm : isCoordinatorTask cfg m = true)
    (hpost : ∀ m2 ∈ post, isCoordinatorTask cfg m2 = false) :
    latest_coordinator_route cfg s = some m.receiver := by
  unfold latest_coordinator_route
  rw [hlog, List.reverse_append, List.reverse_cons, List.find?_append, List.find?_append]
  have hnone : post.reverse.find? (isCoordinatorTask cfg) = none := by
    rw [List.find?_eq_none]
    intro x hx
    simp [hpost x (List.mem_reverse.mp hx)]
  rw [hnone]
  simp [List.find?_cons, hm]

/-- C7 (amended): hub-and-spoke routing. (i) The routing scan returns the
receiver of the newest message in the log that is a coordinator TASK message
to a known spoke role. After a coordinator turn that does not stop the run:
(ii) if no such message exists the run ends immediately with no further
turns; (iii) if the routed role is not in the skip-set the cycle continues
exactly with that role's spoke turn (`hubSpokeTurn`, which runs the routed
role); (iv) if the routed role is in the skip-set the cycle ends with no
spoke turn and the loop proceeds to the next coordinator cycle. -/
theorem hub_route_determines_next_spoke :
    (∀ (cfg : HubCfg) (s : ProjectState) (pre post : List AgentMessage) (m : AgentMessage),
      s.message_log = pre ++ m :: post → isCoordinatorTask cfg m = true →
      (∀ m2 ∈ post, isCoordinatorTask cfg m2 = false) →
      latest_coordinator_route cfg s = some m.receiver) ∧
    (∀ (cfg : HubCfg) (fuel : Nat) (orch orch1 : Orchestrator)
        (cAtts : List TurnResult) (cLast : TurnResult),
      run_role cfg.base orch cfg.coordinator_role = .ok (orch1, cAtts, cLast) →
      cfg.base.should_stop cLast = false →
      latest_coordinator_route cfg orch1.state = none →
      hubCycle cfg orch = .ok (orch1, cAtts, false) ∧
      hubLoop cfg (fuel + 1) orch = .ok (orch1, cAtts)) ∧
    (∀ (cfg : HubCfg) (r : String) (orch orch1 : Orchestrator)
        (cAtts : List TurnResult) (cLast : TurnResult),
      run_role cfg.base orch cfg.coordinator_role = .ok (orch1, cAtts, cLast) →
      cfg.base.should_stop cLast = false →
      latest_coordinator_route cfg orch1.state = some r →
      cfg.base.should_skip r = false →
      hubCycle cfg orch =
        (match hubSpokeTurn cfg r orch1 with
          | .error e => .error e
          | .ok (orch4, sAtts, sCont) => .ok (orch4, cAtts ++ sAtts, sCont))) ∧
    (∀ (cfg : HubCfg) (r : String) (orch orch1 : Orchestrator)
        (cAtts : List TurnResult) (cLast : TurnResult),
      run_role cfg.base orch cfg.coordinator_role = .ok (orch1, cAtts, cLast) →
      cfg.base.should_stop cLast = false →
      latest_coordinator_route cfg orch1.state = some r →
      cfg.base.should_skip r = true →
      hubCycle cfg orch = .ok (orch1, cAtts, true)) := by
  refine ⟨latest_route_spec, ?_, ?_, ?_⟩
  · intro cfg fuel orch orch1 cAtts cLast hrun hstop hroute
    have hcycle : hubCycle cfg orch = .ok (orch1, cAtts, false) := by
      rw [hubCycle]
      simp only [hrun, hstop, Bool.false_eq_true, if_false, ite_false, hroute]
    refine ⟨hcycle, ?_⟩
    rw [hubLoop]
    simp only [hcycle, Bool.false_eq_true, if_false, ite_false]
  · intro cfg r orch orch1 cAtts cLast hrun hstop hroute hskip
    rw [hubCycle]
    simp only [hrun, hstop, Bool.false_eq_true, if_false, ite_false, hroute, hskip]
  · intro cfg r orch orch1 cAtts cLast hrun hstop hroute hskip
    rw [hubCycle]
    simp only [hrun, hstop, Bool.false_eq_true, if_false, ite_false, hroute, hskip,
      if_true, ite_true]

def pmTaskMsg : AgentMessage :=
  { sender := "coordinator", receiver := "pm", content := "go", msg_type := .TASK }

def coordRouteAgent : Agent :=
  { act := fun _ => .ok { messages := [pmTaskMsg] },
    review := fun _ => { status := .APPROVED, comments := [], reviewer := "" } }

def pmAgent : Agent :=
  { act := fun _ => .ok {},
    review := fun _ => { status := .APPROVED, comments := [], reviewer := "" } }

def cfgHub : HubCfg := {}

def orchHubW : Orchestrator :=
  { state := {},
    agents := fun role =>
      if role = "coordinator" then some coordRouteAgent
      else if role = "pm" then some pmAgent
      else none }

def orchHubK : Orchestrator := orchHubW.kickoff "coordinator" "build the app"

def coordRouteTurn : TurnResult :=
  { agent_role := "coordinator", success := true, messages_emitted := 1 }

def orchHubAfterC : Orchestrator :=
  { orchHubK with
    state := orchHubK.state.add_message pmTaskMsg,
    turn_history := orchHubK.turn_history ++ [coordRouteTurn] }

theorem hub_route_determines_next_spoke_witness :
    latest_coordinator_route cfgHub orchHubAfterC.state = some pmTaskMsg.receiver ∧
    hubCycle cfgHub orchHubK =
      (match hubSpokeTurn cfgHub "pm" orchHubAfterC with
        | .error e => .error e
        | .ok (orch4, sAtts, sCont) =>
          .ok (orch4, [coordRouteTurn] ++ sAtts, sCont)) := by
  obtain ⟨p1, _, p3, _⟩ := hub_route_determines_next_spoke
  constructor
  · exact p1 cfgHub orchHubAfterC.state
      [{ sender := "orchestrator", receiver := "coordinator", content := "build the app",
         msg_type := .TASK }] [] pmTaskMsg rfl rfl (by intro m2 h; cases h)
  · exact p3 cfgHub "pm" orchHubK orchHubAfterC [coordRouteTurn] coordRouteTurn rfl rfl
      rfl rfl

def cfgHubSkip : HubCfg :=
  { base := { skipped_roles := ["pm"] }, spoke_roles := ["pm"], max_cycles := 2 }

def orchHubSkip : Orchestrator :=
  { state := {},
    agents := fun role => if role = "coordinator" then some coordRouteAgent else none }

/-- C7 counterexample: with the routed spoke role in the skip-set, the
coordinator's most recent TASK message routes to the known spoke role "pm"
and the run keeps cycling (a second coordinator turn runs), yet no turn for
"pm" is ever executed — the next spoke role is not the receiver of that
message, and the run does not end at the unconsumed route either. -/
theorem hub_skipped_route_counterexample :
    Except.map (fun t => t.2.map (fun r => r.agent_role))
      (hubRun cfgHubSkip orchHubSkip "build the app") =
      .ok ["coordinator", "coordinator"] ∧
    Except.map (fun t => (latest_coordinator_route cfgHubSkip t.1.state,
        cfgHubSkip.base.should_stop t.2.2))
      (run_role cfgHubSkip.base (orchHubSkip.kickoff "coordinator" "build the app")
        "coordinator") =
      .ok (some "pm", false) :=
  ⟨rfl, rfl⟩

end MAS
